import Mathlib

/-!
# Open3D `ListView`: selection state machine and change notification

A shallow embedding of `cpp/open3d/visualization/gui/ListView.cpp`.

* The widget state is the private `ListView::Impl` record; every member function
  becomes a function on that record.
* C++ `int` values (indices, the mode bitmask) are integers and the `size_t` loop
  counter of `Draw` is a natural number. The code performs no arithmetic on an index
  apart from the `++n` of the range loop, and the row count is handed to the backend
  as an `int`, so item counts are taken inside the `int` range. The one unsigned
  expression whose wrap-around is visible there, `int(items_.size() - 1)` on an empty
  vector, yields `-1`, which is what `lastIndex` returns.
* Dear ImGui is a collaborator. What it reports during one frame is the record
  `Frame`; `Draw` is a pure function of the widget state and that record.
* `items_[idx]` with `idx` outside the vector is an out-of-bounds read; the embedding
  makes `GetSelectedValues` return `none` there.
-/

namespace ListView

/-! ## Constants -/

/-- Source: `static const int NO_SELECTION = -1;` -/
def NO_SELECTION : Int := -1

/-- Source: `SelectionMode_::DISABLE = 0`, view-only, no item can be selected. -/
def DISABLE : Int := 0

/-- Source: `SelectionMode_::SINGLE_SELECT = 1 << 0`. -/
def SINGLE_SELECT : Int := 1

/-- Source: `SelectionMode_::MULTI_SELECT = 1 << 1`. -/
def MULTI_SELECT : Int := 2

/-- Source: `SelectionMode_::DESELECTABLE = 1 << 2`. -/
def DESELECTABLE : Int := 4

/-! ## State -/

/-- Source: `struct ListView::Impl`. The fields `imgui_id_` and `auto_scroll_y` take no
part in selection and are left out. `selection_mode_` holds the raw integer that
`SetSelectionMode` casts into the enum. `on_value_changed_` records whether the stored
`std::function` is non-empty; the call itself is reported in `DrawOutcome.callback`. -/
structure Impl where
  items_ : List String
  selection_mode_ : Int
  selected_indices_ : List Int
  last_selected_index_ : Int
  on_value_changed_ : Bool
deriving DecidableEq, Repr

/-- Source: `ListView::ListView()` together with the member initialisers of `Impl`. -/
def construct : Impl :=
  { items_ := []
    selection_mode_ := SINGLE_SELECT
    selected_indices_ := []
    last_selected_index_ := NO_SELECTION
    on_value_changed_ := false }

/-- The number of items, `impl_->items_.size()`. -/
def Count (s : Impl) : Nat := s.items_.length

/-- Source: `int(impl_->items_.size() - 1)`. For the empty vector the `size_t`
difference is `SIZE_MAX`, whose conversion to `int` is `-1`. -/
def lastIndex (s : Impl) : Int := (s.items_.length : Int) - 1

/-- The effect of `std::sort(begin, end)` on a vector of `int`: ascending order. -/
def std_sort (l : List Int) : List Int := l.insertionSort (fun a b => a ≤ b)

/-- Source: `std::equal(first1, last1, first2)`: element-wise comparison over the
length of the first range. `Draw` calls it only when both sizes agree. -/
def std_equal : List Int → List Int → Bool
  | [], _ => true
  | _ :: _, [] => false
  | a :: as, b :: bs => decide (a = b) && std_equal as bs

/-! ## Member functions -/

/-- Source: `ListView::SetItems`. -/
def SetItems (s : Impl) (items : List String) : Impl :=
  { s with items_ := items, selected_indices_ := [] }

/-- Source: `ListView::SetSelectionMode`. -/
def SetSelectionMode (s : Impl) (mode : Int) : Impl :=
  { s with selection_mode_ := mode }

/-- Source: `ListView::GetSelectedIndices`. -/
def GetSelectedIndices (s : Impl) : List Int := s.selected_indices_

/-- The range-for loop of `GetSelectedValues` over the remaining indices, with the
labels pushed so far in `results`. An index outside `items_` ends it with `none`. -/
def GetSelectedValues.loop (items : List String) : List Int → List String → Option (List String)
  | [], results => some results
  | idx :: rest, results =>
    if 0 ≤ idx then
      match items.get? idx.toNat with
      | some label => GetSelectedValues.loop items rest (results ++ [label])
      | none => none
    else none

/-- Source: `ListView::GetSelectedValues`. -/
def GetSelectedValues (s : Impl) : Option (List String) :=
  GetSelectedValues.loop s.items_ s.selected_indices_ []

/-- Source: `ListView::SetSelectedIndex`. -/
def SetSelectedIndex (s : Impl) (index : Int) : Impl :=
  if index ≥ 0 then
    { s with selected_indices_ := [] ++ [min (lastIndex s) index] }
  else
    { s with selected_indices_ := [] }

/-- Source: `ListView::AddSelectedIndex`. -/
def AddSelectedIndex (s : Impl) (index : Int) : Impl :=
  let idx := max 0 (min (lastIndex s) index)
  if ¬ idx ∈ s.selected_indices_ then
    { s with selected_indices_ := std_sort (s.selected_indices_ ++ [idx]) }
  else s

/-- Source: `ListView::SetOnValueChanged`; `registered` tells whether the function
object passed in is non-empty. -/
def SetOnValueChanged (s : Impl) (registered : Bool) : Impl :=
  { s with on_value_changed_ := registered }

/-! ## One frame of `Draw` -/

/-- What the rendering backend reports during one call of `Draw`.

* `listBoxOpen`: the value of `ImGui::ListBoxHeader(...)`.
* `pressed i`: whether the pointer activates row `i` this frame, that is the value of
  `ImGui::Selectable` for row `i` when the row is not drawn disabled.
* `toggled i`: the value `ImGui::Selectable` leaves in `is_selected` for a pressed
  row `i` (Dear ImGui stores the negation of the value passed in).
* `mouseDoubleClicked`: `ImGui::IsMouseDoubleClicked(0)`.
* `keyCtrl`, `keyShift`: `ImGui::GetIO().KeyCtrl`, `ImGui::GetIO().KeyShift`. -/
structure Frame where
  listBoxOpen : Bool
  pressed : Nat → Bool
  toggled : Nat → Bool
  mouseDoubleClicked : Bool
  keyCtrl : Bool
  keyShift : Bool

/-- The call `ImGui::Selectable(label, &is_selected, flag)` for row `i`: the returned
flag and the new value of `is_selected`. With `ImGuiSelectableFlags_Disabled` a row is
never reported as pressed and `is_selected` is left alone. -/
def Selectable (f : Frame) (i : Nat) (is_selected : Bool) (disabled : Bool) : Bool × Bool :=
  if disabled = false ∧ f.pressed i = true then (true, f.toggled i) else (false, is_selected)

/-- The variables of `Draw` that the row loop reads and writes: the local copy
`selected_indices`, the local `is_double_click`, and `impl_->last_selected_index_`. -/
structure DrawLocals where
  selected_indices : List Int
  is_double_click : Bool
  last_selected_index_ : Int
deriving DecidableEq, Repr

/-- Source: `for (int n = beg; n <= end; ++n) selected_indices.push_back(n);`,
as `count` iterations starting at `n`. -/
def Draw.pushRange : Nat → Int → List Int → List Int
  | 0, _, selected_indices => selected_indices
  | count + 1, n, selected_indices => Draw.pushRange count (n + 1) (selected_indices ++ [n])

/-- The body of the row loop of `Draw` for row `i`. -/
def Draw.row (s : Impl) (f : Frame) (v : DrawLocals) (i : Nat) : DrawLocals :=
  let found : Bool := decide ((i : Int) ∈ s.selected_indices_)
  let disabled : Bool := decide (s.selection_mode_ = DISABLE)
  let r := Selectable f i found disabled
  if r.1 = true then
    let is_selected : Bool := r.2
    let is_double_click : Bool := if f.mouseDoubleClicked = true then true else v.is_double_click
    if f.keyCtrl = true ∧ Int.land s.selection_mode_ MULTI_SELECT ≠ 0 then
      if is_selected = true ∧ ¬ (i : Int) ∈ v.selected_indices then
        { selected_indices := std_sort (v.selected_indices ++ [(i : Int)])
          is_double_click := is_double_click
          last_selected_index_ := v.last_selected_index_ }
      else if is_selected = false ∧ (i : Int) ∈ v.selected_indices then
        { selected_indices := v.selected_indices.erase (i : Int)
          is_double_click := is_double_click
          last_selected_index_ := v.last_selected_index_ }
      else
        { selected_indices := v.selected_indices
          is_double_click := is_double_click
          last_selected_index_ := v.last_selected_index_ }
    else if f.keyShift = true ∧ Int.land s.selection_mode_ MULTI_SELECT ≠ 0 then
      if v.last_selected_index_ ≠ NO_SELECTION then
        let beg : Int := min (i : Int) v.last_selected_index_
        let en : Int := max (i : Int) v.last_selected_index_
        { selected_indices := Draw.pushRange (en + 1 - beg).toNat beg []
          is_double_click := is_double_click
          last_selected_index_ := v.last_selected_index_ }
      else
        { selected_indices := []
          is_double_click := is_double_click
          last_selected_index_ := (i : Int) }
    else
      if is_selected = true ∨ is_double_click = true then
        { selected_indices := [] ++ [(i : Int)]
          is_double_click := is_double_click
          last_selected_index_ := (i : Int) }
      else
        { selected_indices := []
          is_double_click := is_double_click
          last_selected_index_ := v.last_selected_index_ }
  else v

/-- The values of the loop variables on entry to the row loop. -/
def Draw.entry (s : Impl) : DrawLocals :=
  { selected_indices := s.selected_indices_
    is_double_click := false
    last_selected_index_ := s.last_selected_index_ }

/-- Source: `for (size_t i = 0; i < impl_->items_.size(); ++i) ...` in `Draw`. -/
def Draw.rows (s : Impl) (f : Frame) : DrawLocals :=
  (List.range s.items_.length).foldl (Draw.row s f) (Draw.entry s)

/-- The candidate of a frame: the loop variables when the change test is reached, or
their entry values when `ListBoxHeader` returned false and the block was skipped. -/
def Draw.candidate (s : Impl) (f : Frame) : DrawLocals :=
  if f.listBoxOpen = true then Draw.rows s f else Draw.entry s

/-- Source: `Widget::DrawResult`, the two values `ListView::Draw` returns. -/
inductive DrawResult where
  | NONE
  | REDRAW
deriving DecidableEq, Repr

/-- What one call of `Draw` leaves behind: the widget state, the returned
`DrawResult`, and the arguments of the call of `on_value_changed_` if it was called
(`none` as first argument stands for an out-of-bounds read in `GetSelectedValues`). -/
structure DrawOutcome where
  state : Impl
  result : DrawResult
  callback : Option (Option (List String) × Bool)
deriving DecidableEq, Repr

/-- The change test and commit at the end of the `ListBoxHeader` block of `Draw`
(source lines 220-230), for the loop variables `v` left by the row loop. -/
def Draw.notify (s : Impl) (v : DrawLocals) : DrawOutcome :=
  let s1 : Impl := { s with last_selected_index_ := v.last_selected_index_ }
  if v.is_double_click = true ∨ v.selected_indices.length ≠ s1.selected_indices_.length ∨
      std_equal v.selected_indices s1.selected_indices_ = false then
    let s2 : Impl := { s1 with selected_indices_ := v.selected_indices }
    { state := s2
      result := DrawResult.REDRAW
      callback :=
        if s2.on_value_changed_ = true then some (GetSelectedValues s2, v.is_double_click)
        else none }
  else
    { state := s1, result := DrawResult.NONE, callback := none }

/-- Source: `ListView::Draw`, the selection logic (styling calls left out). -/
def Draw (s : Impl) (f : Frame) : DrawOutcome :=
  if f.listBoxOpen = true then Draw.notify s (Draw.rows s f)
  else { state := s, result := DrawResult.NONE, callback := none }

/-- A frame in which the list box is open and row `i` is the only pressed row. -/
def clickFrame (i : Nat) (toggled ctrl shift dbl : Bool) : Frame :=
  { listBoxOpen := true
    pressed := fun r => decide (r = i)
    toggled := fun _ => toggled
    mouseDoubleClicked := dbl
    keyCtrl := ctrl
    keyShift := shift }

/-- The list box is open and, among the `n` rows, row `i` is the only one the
backend reports as pressed in frame `f`. -/
def Frame.soleClick (f : Frame) (n i : Nat) : Prop :=
  f.listBoxOpen = true ∧ i < n ∧ f.pressed i = true ∧
    ∀ r, r < n → r ≠ i → f.pressed r = false

/-- The toggle signal of row `i` is the negation of the membership of `i` in the
committed selection `sel`, as Dear ImGui produces it. -/
def Frame.togglesFrom (f : Frame) (sel : List Int) (i : Nat) : Prop :=
  f.toggled i = !decide ((i : Int) ∈ sel)

instance Frame.decidableSoleClick (f : Frame) (n i : Nat) : Decidable (f.soleClick n i) :=
  inferInstanceAs (Decidable (f.listBoxOpen = true ∧ i < n ∧ f.pressed i = true ∧
    ∀ r, r < n → r ≠ i → f.pressed r = false))

instance Frame.decidableTogglesFrom (f : Frame) (sel : List Int) (i : Nat) :
    Decidable (f.togglesFrom sel i) :=
  inferInstanceAs (Decidable (f.toggled i = !decide ((i : Int) ∈ sel)))

/-- The frame `f` with the two modifier keys replaced: what the backend reports when
the same pointer input arrives with `ctrl` and `shift` held or released. -/
def Frame.withKeys (f : Frame) (ctrl shift : Bool) : Frame :=
  { f with keyCtrl := ctrl, keyShift := shift }

/-- The inclusive range of row indices from `lo` to `hi`, ascending. -/
def rowRange (lo hi : Nat) : List Int := List.map Int.ofNat (List.Ico lo (hi + 1))

/-- The selection invariant of the specification: the selected indices are strictly
ascending and each one is a row of the item store. -/
def SelectionInvariant (s : Impl) : Prop :=
  (GetSelectedIndices s).Sorted (fun a b => a < b) ∧
    ∀ k ∈ GetSelectedIndices s, 0 ≤ k ∧ k < (Count s : Int)

instance decidableSelectionInvariant (s : Impl) : Decidable (SelectionInvariant s) :=
  inferInstanceAs (Decidable ((GetSelectedIndices s).Sorted (fun a b => a < b) ∧
    ∀ k ∈ GetSelectedIndices s, 0 ≤ k ∧ k < (Count s : Int)))

/-! ## Library facts about the list primitives -/

theorem std_sort_perm (l : List Int) : (std_sort l).Perm l :=
  List.perm_insertionSort _ l

theorem mem_std_sort {l : List Int} {x : Int} : x ∈ std_sort l ↔ x ∈ l :=
  (std_sort_perm l).mem_iff

theorem std_sort_sorted (l : List Int) : (std_sort l).Sorted (fun a b => a ≤ b) :=
  List.sorted_insertionSort _ l

/-- Pushing a new element behind a strictly ascending vector and sorting gives a
strictly ascending vector. -/
theorem std_sort_push_strict {l : List Int} {x : Int} (hl : l.Sorted (fun a b => a < b))
    (hx : ¬ x ∈ l) : (std_sort (l ++ [x])).Sorted (fun a b => a < b) := by
  have hnd : (l ++ [x]).Nodup := by
    rw [List.nodup_append]
    refine ⟨hl.nodup, List.nodup_singleton x, ?_⟩
    intro a ha hb
    rw [List.mem_singleton] at hb
    exact hx (hb ▸ ha)
  exact (std_sort_sorted _).lt_of_le ((std_sort_perm _).nodup_iff.mpr hnd)

theorem mem_std_sort_push {l : List Int} {x k : Int} :
    k ∈ std_sort (l ++ [x]) ↔ k ∈ l ∨ k = x := by
  rw [mem_std_sort, List.mem_append, List.mem_singleton]

theorem std_equal_iff : ∀ (a b : List Int), a.length = b.length → (std_equal a b = true ↔ a = b)
  | [], [], _ => by simp [std_equal]
  | [], _ :: _, h => by simp at h
  | _ :: _, [], h => by simp at h
  | x :: as, y :: bs, h => by
    have ih := std_equal_iff as bs (by simpa using h)
    simp [std_equal, ih]

/-- The change test of `Draw` is the test whether the two vectors differ. -/
theorem change_test_iff (a b : List Int) :
    (a.length ≠ b.length ∨ std_equal a b = false) ↔ a ≠ b := by
  constructor
  · rintro (h | h) hab
    · exact h (by rw [hab])
    · subst hab
      rw [(std_equal_iff a a rfl).mpr rfl] at h
      exact Bool.noConfusion h
  · intro hab
    by_cases hlen : a.length = b.length
    · right
      rw [Bool.eq_false_iff]
      exact fun h => hab ((std_equal_iff a b hlen).mp h)
    · exact Or.inl hlen

/-! ## Direct mutators -/

/-- C2: for every prior state and every label list, right after `SetItems labels`
the selection returned by `GetSelectedIndices` is empty and the stored items are
exactly `labels`. -/
theorem SetItems_clears_selection (s : Impl) (labels : List String) :
    GetSelectedIndices (SetItems s labels) = [] ∧ (SetItems s labels).items_ = labels :=
  ⟨rfl, rfl⟩

/-- C3: on a non-empty item store, `SetSelectedIndex index` leaves the empty
selection when `index < 0` and otherwise exactly `[min index (Count - 1)]`, which is
a valid row; so `-1` clears and every `k ≥ Count` selects exactly `Count - 1`. -/
theorem SetSelectedIndex_spec (s : Impl) (index : Int) (hne : s.items_ ≠ []) :
    (index < 0 → GetSelectedIndices (SetSelectedIndex s index) = []) ∧
    (0 ≤ index → GetSelectedIndices (SetSelectedIndex s index) = [min index ((Count s : Int) - 1)]
       ∧ 0 ≤ min index ((Count s : Int) - 1) ∧ min index ((Count s : Int) - 1) < (Count s : Int)) ∧
    GetSelectedIndices (SetSelectedIndex s (-1)) = [] ∧
    (∀ k : Int, (Count s : Int) ≤ k →
       GetSelectedIndices (SetSelectedIndex s k) = [(Count s : Int) - 1]) := by
  have hpos : 0 < s.items_.length := List.length_pos.mpr hne
  refine ⟨?_, ?_, ?_, ?_⟩
  · intro h
    simp [SetSelectedIndex, GetSelectedIndices, not_le.mpr h]
  · intro h
    refine ⟨?_, ?_, ?_⟩
    · simp [SetSelectedIndex, GetSelectedIndices, h, lastIndex, Count, min_comm]
    · simp only [Count]; omega
    · simp only [Count]; omega
  · simp [SetSelectedIndex, GetSelectedIndices]
  · intro k hk
    have hk0 : 0 ≤ k := by simp only [Count] at hk; omega
    have hmin : min ((s.items_.length : Int) - 1) k = (s.items_.length : Int) - 1 := by
      simp only [Count] at hk; omega
    simp [SetSelectedIndex, GetSelectedIndices, hk0, lastIndex, Count, hmin]

theorem SetSelectedIndex_spec_witness :
    GetSelectedIndices (SetSelectedIndex (SetItems construct ["a", "b", "c"]) 7) = [2] :=
  ((SetSelectedIndex_spec (SetItems construct ["a", "b", "c"]) 7 (by decide)).2.1
    (by decide)).1.trans (by decide)

/-- C4: on a non-empty item store with a strictly ascending selection `S`,
`AddSelectedIndex index` leaves a strictly ascending selection whose elements are
those of `S` together with `c = max 0 (min index (Count - 1))`, a valid row; every
index selected before is still selected. On the store `["x"]`, `AddSelectedIndex 5`
gives `[0]`. -/
theorem AddSelectedIndex_spec (s : Impl) (index : Int) (hne : s.items_ ≠ [])
    (hS : s.selected_indices_.Sorted (fun a b => a < b)) :
    (GetSelectedIndices (AddSelectedIndex s index)).Sorted (fun a b => a < b) ∧
    (∀ k : Int, k ∈ GetSelectedIndices (AddSelectedIndex s index) ↔
       k ∈ s.selected_indices_ ∨ k = max 0 (min index ((Count s : Int) - 1))) ∧
    (∀ k : Int, k ∈ s.selected_indices_ → k ∈ GetSelectedIndices (AddSelectedIndex s index)) ∧
    (0 ≤ max 0 (min index ((Count s : Int) - 1)) ∧
       max 0 (min index ((Count s : Int) - 1)) < (Count s : Int)) ∧
    GetSelectedIndices (AddSelectedIndex (SetItems construct ["x"]) 5) = [0] := by
  have hpos : 0 < s.items_.length := List.length_pos.mpr hne
  have hc : max 0 (min (lastIndex s) index) = max 0 (min index ((Count s : Int) - 1)) := by
    simp [lastIndex, Count, min_comm]
  have hmem : ∀ k : Int, k ∈ GetSelectedIndices (AddSelectedIndex s index) ↔
      k ∈ s.selected_indices_ ∨ k = max 0 (min index ((Count s : Int) - 1)) := by
    intro k
    rw [← hc]
    by_cases hin : max 0 (min (lastIndex s) index) ∈ s.selected_indices_
    · simp only [AddSelectedIndex, GetSelectedIndices, hin, not_true_eq_false, if_false]
      constructor
      · exact Or.inl
      · rintro (h | h)
        · exact h
        · exact h ▸ hin
    · simp only [AddSelectedIndex, GetSelectedIndices, hin, not_false_eq_true, if_true]
      exact mem_std_sort_push
  refine ⟨?_, hmem, fun k hk => (hmem k).mpr (Or.inl hk), ?_, by decide⟩
  · by_cases hin : max 0 (min (lastIndex s) index) ∈ s.selected_indices_
    · simpa only [AddSelectedIndex, GetSelectedIndices, hin, not_true_eq_false, if_false] using hS
    · simp only [AddSelectedIndex, GetSelectedIndices, hin, not_false_eq_true, if_true]
      exact std_sort_push_strict hS hin
  · simp only [Count]; omega

theorem AddSelectedIndex_spec_witness :
    (GetSelectedIndices (AddSelectedIndex (SetSelectedIndex (SetItems construct ["a", "b", "c"]) 2) 0)).Sorted
        (fun a b => a < b) ∧
    GetSelectedIndices (AddSelectedIndex (SetSelectedIndex (SetItems construct ["a", "b", "c"]) 2) 0) = [0, 2] :=
  ⟨(AddSelectedIndex_spec (SetSelectedIndex (SetItems construct ["a", "b", "c"]) 2) 0
      (by decide) (by decide)).1, by decide⟩

/-- C5: `AddSelectedIndex` is idempotent: for every state and every index, calling it
twice with the same index leaves the state that one call leaves. -/
theorem AddSelectedIndex_idempotent (s : Impl) (i : Int) :
    AddSelectedIndex (AddSelectedIndex s i) i = AddSelectedIndex s i := by
  by_cases hin : max 0 (min (lastIndex s) i) ∈ s.selected_indices_
  · have h1 : AddSelectedIndex s i = s := by
      simp only [AddSelectedIndex, hin, not_true_eq_false, if_false]
    rw [h1, h1]
  · have h1 : AddSelectedIndex s i =
        { s with selected_indices_ := std_sort (s.selected_indices_ ++ [max 0 (min (lastIndex s) i)]) } := by
      simp only [AddSelectedIndex, hin, not_false_eq_true, if_true]
    have hmem : max 0 (min (lastIndex s) i) ∈
        std_sort (s.selected_indices_ ++ [max 0 (min (lastIndex s) i)]) :=
      mem_std_sort_push.mpr (Or.inr rfl)
    rw [h1]
    simp only [AddSelectedIndex, lastIndex, not_not]
    simp only [lastIndex] at hmem
    rw [if_neg (not_not.mpr hmem)]

/-! ## The row loop with a single pressed row -/

theorem Draw.row_not_pressed (s : Impl) (f : Frame) (v : DrawLocals) (r : Nat)
    (h : f.pressed r = false) : Draw.row s f v r = v := by
  simp [Draw.row, Selectable, h]

theorem foldl_sole {α : Type} (g : α → Nat → α) (i : Nat) :
    ∀ (l : List Nat) (v : α), l.Nodup → i ∈ l → (∀ r ∈ l, r ≠ i → ∀ w, g w r = w) →
      l.foldl g v = g v i
  | [], _, _, hi, _ => by simp at hi
  | a :: l, v, hnd, hi, hid => by
    rw [List.nodup_cons] at hnd
    rw [List.foldl_cons]
    by_cases ha : a = i
    · subst ha
      have hfix : ∀ (l2 : List Nat) (w : α), (∀ r ∈ l2, r ≠ a → ∀ w, g w r = w) → a ∉ l2 →
          l2.foldl g w = w := by
        intro l2
        induction l2 with
        | nil => intro w _ _; rfl
        | cons b l2 ih =>
          intro w hb hnot
          rw [List.foldl_cons, hb b (List.mem_cons_self b l2)
            (fun hba => hnot (hba ▸ List.mem_cons_self b l2))]
          exact ih w (fun r hr => hb r (List.mem_cons_of_mem b hr))
            (fun hmem => hnot (List.mem_cons_of_mem b hmem))
      exact hfix l (g v a) (fun r hr => hid r (List.mem_cons_of_mem a hr)) hnd.1
    · have hil : i ∈ l := by
        rcases List.mem_cons.mp hi with h | h
        · exact absurd h.symm ha
        · exact h
      rw [hid a (List.mem_cons_self a l) ha]
      exact foldl_sole g i l v hnd.2 hil (fun r hr => hid r (List.mem_cons_of_mem a hr))

/-- With a single pressed row the row loop is one execution of its body, for that row. -/
theorem Draw.rows_soleClick (s : Impl) (f : Frame) (i : Nat)
    (h : f.soleClick (Count s) i) : Draw.rows s f = Draw.row s f (Draw.entry s) i := by
  obtain ⟨_, hi, _, hrest⟩ := h
  unfold Draw.rows
  apply foldl_sole (Draw.row s f) i _ _ (List.nodup_range _) (List.mem_range.mpr hi)
  intro r hr hne w
  exact Draw.row_not_pressed s f w r (hrest r (List.mem_range.mp hr) hne)

theorem Draw_soleClick (s : Impl) (f : Frame) (i : Nat) (h : f.soleClick (Count s) i) :
    Draw s f = Draw.notify s (Draw.row s f (Draw.entry s) i) := by
  rw [Draw, if_pos h.1, Draw.rows_soleClick s f i h]

theorem multi_not_disabled {m : Int} (h : Int.land m MULTI_SELECT ≠ 0) : m ≠ DISABLE := by
  intro h0
  rw [h0] at h
  exact h (by decide)

/-- The state a frame commits when the candidate differs from the committed vector. -/
theorem Draw.notify_changed (s : Impl) (v : DrawLocals)
    (h : v.is_double_click = true ∨ v.selected_indices ≠ s.selected_indices_) :
    Draw.notify s v =
      { state := { s with last_selected_index_ := v.last_selected_index_
                          selected_indices_ := v.selected_indices }
        result := DrawResult.REDRAW
        callback :=
          if s.on_value_changed_ = true then
            some (GetSelectedValues { s with last_selected_index_ := v.last_selected_index_
                                             selected_indices_ := v.selected_indices },
                  v.is_double_click)
          else none } := by
  have hc : v.is_double_click = true ∨ v.selected_indices.length ≠ s.selected_indices_.length ∨
      std_equal v.selected_indices s.selected_indices_ = false := by
    rcases h with h | h
    · exact Or.inl h
    · exact Or.inr ((change_test_iff _ _).mpr h)
  simp only [Draw.notify]
  rw [if_pos hc]

/-- The state a frame leaves when the candidate equals the committed vector and no
double-click was seen. -/
theorem Draw.notify_unchanged (s : Impl) (v : DrawLocals)
    (hd : v.is_double_click = false) (hs : v.selected_indices = s.selected_indices_) :
    Draw.notify s v =
      { state := { s with last_selected_index_ := v.last_selected_index_ }
        result := DrawResult.NONE
        callback := none } := by
  have hc : ¬ (v.is_double_click = true ∨ v.selected_indices.length ≠ s.selected_indices_.length ∨
      std_equal v.selected_indices s.selected_indices_ = false) := by
    rintro (h | h)
    · rw [hd] at h
      exact Bool.noConfusion h
    · exact (change_test_iff _ _).mp h hs
  simp only [Draw.notify]
  rw [if_neg hc]

/-- Whatever the change test decides, the committed vector after the frame is the
candidate, and the anchor is the one the row loop left. -/
theorem Draw.notify_state (s : Impl) (v : DrawLocals) :
    (Draw.notify s v).state =
      { s with last_selected_index_ := v.last_selected_index_
               selected_indices_ := v.selected_indices } := by
  by_cases h : v.is_double_click = true ∨ v.selected_indices ≠ s.selected_indices_
  · rw [Draw.notify_changed s v h]
  · rw [not_or] at h
    have hd : v.is_double_click = false := by
      cases hv : v.is_double_click
      · rfl
      · exact absurd hv h.1
    have hs : v.selected_indices = s.selected_indices_ := not_not.mp h.2
    rw [Draw.notify_unchanged s v hd hs, hs]

/-! ## The three click branches -/

/-- The ctrl branch of the row body, for a pressed row in a mode with the
`MULTI_SELECT` bit. -/
theorem Draw.row_ctrl (s : Impl) (f : Frame) (v : DrawLocals) (i : Nat)
    (hm : Int.land s.selection_mode_ MULTI_SELECT ≠ 0) (hp : f.pressed i = true)
    (hc : f.keyCtrl = true) :
    Draw.row s f v i =
      { selected_indices :=
          if f.toggled i = true ∧ ¬ (i : Int) ∈ v.selected_indices then
            std_sort (v.selected_indices ++ [(i : Int)])
          else if f.toggled i = false ∧ (i : Int) ∈ v.selected_indices then
            v.selected_indices.erase (i : Int)
          else v.selected_indices
        is_double_click := if f.mouseDoubleClicked = true then true else v.is_double_click
        last_selected_index_ := v.last_selected_index_ } := by
  have hd : s.selection_mode_ ≠ DISABLE := multi_not_disabled hm
  simp only [Draw.row, Selectable, hd, hp, hc, decide_False, and_self, if_true, true_and, ne_eq,
    hm, not_false_eq_true]
  split_ifs <;> rfl

/-- The shift branch of the row body, for a pressed row in a mode with the
`MULTI_SELECT` bit and ctrl not held. -/
theorem Draw.row_shift (s : Impl) (f : Frame) (v : DrawLocals) (i : Nat)
    (hm : Int.land s.selection_mode_ MULTI_SELECT ≠ 0) (hp : f.pressed i = true)
    (hc : f.keyCtrl = false) (hs : f.keyShift = true) :
    Draw.row s f v i =
      if v.last_selected_index_ ≠ NO_SELECTION then
        { selected_indices :=
            Draw.pushRange (max (i : Int) v.last_selected_index_ + 1
              - min (i : Int) v.last_selected_index_).toNat (min (i : Int) v.last_selected_index_) []
          is_double_click := if f.mouseDoubleClicked = true then true else v.is_double_click
          last_selected_index_ := v.last_selected_index_ }
      else
        { selected_indices := []
          is_double_click := if f.mouseDoubleClicked = true then true else v.is_double_click
          last_selected_index_ := (i : Int) } := by
  have hd : s.selection_mode_ ≠ DISABLE := multi_not_disabled hm
  simp only [Draw.row, Selectable, hd, hp, hc, hs, decide_False, and_self, if_true, true_and,
    ne_eq, hm, not_false_eq_true, Bool.false_eq_true, false_and, if_false]

/-- The plain branch of the row body, for a pressed row in a mode other than
`DISABLE`, when neither modifier branch is taken. -/
theorem Draw.row_plain (s : Impl) (f : Frame) (v : DrawLocals) (i : Nat)
    (hd : s.selection_mode_ ≠ DISABLE) (hp : f.pressed i = true)
    (hc : ¬ (f.keyCtrl = true ∧ Int.land s.selection_mode_ MULTI_SELECT ≠ 0))
    (hs : ¬ (f.keyShift = true ∧ Int.land s.selection_mode_ MULTI_SELECT ≠ 0)) :
    Draw.row s f v i =
      if f.toggled i = true ∨ (if f.mouseDoubleClicked = true then true else v.is_double_click) = true then
        { selected_indices := [(i : Int)]
          is_double_click := if f.mouseDoubleClicked = true then true else v.is_double_click
          last_selected_index_ := (i : Int) }
      else
        { selected_indices := []
          is_double_click := if f.mouseDoubleClicked = true then true else v.is_double_click
          last_selected_index_ := v.last_selected_index_ } := by
  simp only [Draw.row, Selectable, hd, hp, decide_False, and_self, if_true, hc, hs, if_false,
    List.nil_append]

theorem std_sort_push_eq_orderedInsert {l : List Int} (x : Int)
    (hl : l.Sorted (fun a b => a < b)) :
    std_sort (l ++ [x]) = l.orderedInsert (fun a b => a ≤ b) x := by
  have hle : l.Sorted (fun a b => a ≤ b) := hl.imp (fun h => le_of_lt h)
  apply List.eq_of_perm_of_sorted _ (std_sort_sorted _) (hle.orderedInsert x l)
  exact (std_sort_perm _).trans
    ((List.perm_append_comm).trans (List.perm_orderedInsert _ x l).symm)

/-- C6: ctrl-click toggles exactly one row. In a mode with the `MULTI_SELECT` bit,
for a strictly ascending committed selection `S` and a frame whose only pressed row
is `i < Count` with ctrl held and the toggle signal the negation of the membership
of `i` in `S`: the selection after `Draw` is strictly ascending; if `i` was not in
`S` it is `S` with `i` inserted at its ascending position, if `i` was in `S` it is
`S` with `i` erased; `i` has changed membership and every other index has kept
its membership. -/
theorem Draw_ctrl_click_toggles (s : Impl) (f : Frame) (i : Nat)
    (hm : Int.land s.selection_mode_ MULTI_SELECT ≠ 0)
    (hS : s.selected_indices_.Sorted (fun a b => a < b))
    (hclick : f.soleClick (Count s) i) (hctrl : f.keyCtrl = true)
    (htog : f.togglesFrom s.selected_indices_ i) :
    (GetSelectedIndices (Draw s f).state).Sorted (fun a b => a < b) ∧
    (¬ (i : Int) ∈ s.selected_indices_ →
      GetSelectedIndices (Draw s f).state
        = s.selected_indices_.orderedInsert (fun a b => a ≤ b) (i : Int)) ∧
    ((i : Int) ∈ s.selected_indices_ →
      GetSelectedIndices (Draw s f).state = s.selected_indices_.erase (i : Int)) ∧
    ((i : Int) ∈ GetSelectedIndices (Draw s f).state ↔ ¬ (i : Int) ∈ s.selected_indices_) ∧
    (∀ k : Int, k ≠ (i : Int) →
      (k ∈ GetSelectedIndices (Draw s f).state ↔ k ∈ s.selected_indices_)) := by
  have hsel : GetSelectedIndices (Draw s f).state =
      if (i : Int) ∈ s.selected_indices_ then s.selected_indices_.erase (i : Int)
      else std_sort (s.selected_indices_ ++ [(i : Int)]) := by
    rw [Draw_soleClick s f i hclick, Draw.notify_state, Draw.row_ctrl s f _ i hm hclick.2.2.1 hctrl]
    unfold Frame.togglesFrom at htog
    by_cases hin : (i : Int) ∈ s.selected_indices_
    · simp [GetSelectedIndices, Draw.entry, htog, hin]
    · simp [GetSelectedIndices, Draw.entry, htog, hin]
  by_cases hin : (i : Int) ∈ s.selected_indices_
  · rw [hsel, if_pos hin]
    refine ⟨hS.sublist (List.erase_sublist _ _), fun h => absurd hin h, fun _ => rfl, ?_, ?_⟩
    · simp [hS.nodup.mem_erase_iff, hin]
    · intro k hk
      simp [hS.nodup.mem_erase_iff, hk]
  · rw [hsel, if_neg hin]
    refine ⟨std_sort_push_strict hS hin, fun _ => std_sort_push_eq_orderedInsert _ hS,
      fun h => absurd h hin, ?_, ?_⟩
    · simp [mem_std_sort_push, hin]
    · intro k hk
      simp [mem_std_sort_push, hk]

theorem Draw_ctrl_click_toggles_witness :
    GetSelectedIndices (Draw (SetSelectedIndex (SetSelectionMode
        (SetItems construct ["a", "b", "c", "d"]) MULTI_SELECT) 1)
        (clickFrame 3 true true false false)).state = [1, 3] :=
  ((Draw_ctrl_click_toggles (SetSelectedIndex (SetSelectionMode
        (SetItems construct ["a", "b", "c", "d"]) MULTI_SELECT) 1)
      (clickFrame 3 true true false false) 3 (by decide) (by decide)
      (by decide) rfl (by decide)).2.1
    (by decide)).trans (by decide)

theorem Draw.pushRange_eq : ∀ (count a : Nat) (acc : List Int),
    Draw.pushRange count (a : Int) acc = acc ++ List.map Int.ofNat (List.range' a count)
  | 0, _, acc => by simp [Draw.pushRange]
  | count + 1, a, acc => by
    have h := Draw.pushRange_eq count (a + 1) (acc ++ [(a : Int)])
    rw [Nat.cast_add, Nat.cast_one] at h
    rw [Draw.pushRange, h, List.range'_succ, List.map_cons, List.append_assoc,
      List.singleton_append]
    rfl

/-- The range loop of the shift branch, between a clicked row and a row anchor. -/
theorem Draw.pushRange_rows (i a : Nat) :
    Draw.pushRange (max (i : Int) (a : Int) + 1 - min (i : Int) (a : Int)).toNat
      (min (i : Int) (a : Int)) [] = rowRange (min i a) (max i a) := by
  have hcount : (max (i : Int) (a : Int) + 1 - min (i : Int) (a : Int)).toNat
      = max i a + 1 - min i a := by omega
  have hbeg : min (i : Int) (a : Int) = ((min i a : Nat) : Int) := by omega
  rw [hcount, hbeg, Draw.pushRange_eq, List.nil_append]
  rfl

theorem row_ne_NO_SELECTION (i : Nat) : (i : Int) ≠ NO_SELECTION := by
  unfold NO_SELECTION
  omega

theorem Count_Draw (s : Impl) (f : Frame) : Count (Draw s f).state = Count s := by
  unfold Draw
  split_ifs
  · rw [Draw.notify_state]
    rfl
  · rfl

theorem mode_Draw (s : Impl) (f : Frame) :
    (Draw s f).state.selection_mode_ = s.selection_mode_ := by
  unfold Draw
  split_ifs
  · rw [Draw.notify_state]
  · rfl

/-- C7: shift-click range selection. In a mode with the `MULTI_SELECT` bit, with ctrl
not held and no anchor yet, a shift-click on row `i` leaves the selection empty,
whatever was selected before, and sets the anchor to `i`; a following shift-click on
row `j` makes the selection exactly the ascending list of all rows from `min i j`
to `max i j`, and the anchor stays `i`. -/
theorem Draw_shift_click_range (s : Impl) (f1 f2 : Frame) (i j : Nat)
    (hm : Int.land s.selection_mode_ MULTI_SELECT ≠ 0)
    (hno : s.last_selected_index_ = NO_SELECTION)
    (h1 : f1.soleClick (Count s) i) (hc1 : f1.keyCtrl = false) (hs1 : f1.keyShift = true)
    (h2 : f2.soleClick (Count s) j) (hc2 : f2.keyCtrl = false) (hs2 : f2.keyShift = true) :
    GetSelectedIndices (Draw s f1).state = [] ∧
    (Draw s f1).state.last_selected_index_ = (i : Int) ∧
    GetSelectedIndices (Draw (Draw s f1).state f2).state = rowRange (min i j) (max i j) ∧
    (Draw (Draw s f1).state f2).state.last_selected_index_ = (i : Int) := by
  have hst1 : (Draw s f1).state =
      { s with last_selected_index_ := (i : Int), selected_indices_ := [] } := by
    rw [Draw_soleClick s f1 i h1, Draw.notify_state, Draw.row_shift s f1 _ i hm h1.2.2.1 hc1 hs1]
    simp [Draw.entry, hno]
  have h2x : f2.soleClick (Count (Draw s f1).state) j := by
    rw [Count_Draw]
    exact h2
  have hm1 : Int.land (Draw s f1).state.selection_mode_ MULTI_SELECT ≠ 0 := by
    rw [mode_Draw]
    exact hm
  have hst2 : (Draw (Draw s f1).state f2).state =
      { s with last_selected_index_ := (i : Int)
               selected_indices_ := rowRange (min i j) (max i j) } := by
    rw [Draw_soleClick _ f2 j h2x, Draw.notify_state,
      Draw.row_shift _ f2 _ j hm1 h2.2.2.1 hc2 hs2, hst1]
    simp only [Draw.entry, ne_eq, row_ne_NO_SELECTION, not_false_eq_true, if_true,
      Draw.pushRange_rows, min_comm, max_comm]
  rw [hst2, hst1]
  exact ⟨rfl, rfl, rfl, rfl⟩

theorem Draw_shift_click_range_witness :
    GetSelectedIndices (Draw (Draw (SetSelectedIndex (SetSelectionMode
        (SetItems construct ["a", "b", "c", "d", "e"]) MULTI_SELECT) 0)
        (clickFrame 3 true false true false)).state
        (clickFrame 1 true false true false)).state = [1, 2, 3] :=
  (Draw_shift_click_range (SetSelectedIndex (SetSelectionMode
        (SetItems construct ["a", "b", "c", "d", "e"]) MULTI_SELECT) 0)
      (clickFrame 3 true false true false) (clickFrame 1 true false true false) 3 1
      (by decide) (by decide) (by decide) rfl rfl (by decide) rfl rfl).2.2.1.trans (by decide)

/-- C8: plain-click policy. In a mode other than `DISABLE`, for a frame whose only
pressed row is `i` and which takes the plain branch (neither ctrl nor shift held, or
the `MULTI_SELECT` bit absent): if the toggle signal reports the row selected or the
click is a double-click, the selection afterwards is exactly `[i]` and the anchor
is `i`; if `i` was the only selected row, the toggle signal is the negation of its
membership, and the click is no double-click, the selection afterwards is empty. -/
theorem Draw_plain_click (s : Impl) (f : Frame) (i : Nat)
    (hd : s.selection_mode_ ≠ DISABLE) (hclick : f.soleClick (Count s) i)
    (hplain : (f.keyCtrl = false ∧ f.keyShift = false) ∨
      Int.land s.selection_mode_ MULTI_SELECT = 0) :
    ((f.toggled i = true ∨ f.mouseDoubleClicked = true) →
      GetSelectedIndices (Draw s f).state = [(i : Int)] ∧
      (Draw s f).state.last_selected_index_ = (i : Int)) ∧
    (s.selected_indices_ = [(i : Int)] → f.togglesFrom s.selected_indices_ i →
      f.mouseDoubleClicked = false → GetSelectedIndices (Draw s f).state = []) := by
  have hc : ¬ (f.keyCtrl = true ∧ Int.land s.selection_mode_ MULTI_SELECT ≠ 0) := by
    rintro ⟨h1, h2⟩
    rcases hplain with h | h
    · rw [h.1] at h1
      exact Bool.noConfusion h1
    · exact h2 h
  have hs : ¬ (f.keyShift = true ∧ Int.land s.selection_mode_ MULTI_SELECT ≠ 0) := by
    rintro ⟨h1, h2⟩
    rcases hplain with h | h
    · rw [h.2] at h1
      exact Bool.noConfusion h1
    · exact h2 h
  have hrow := Draw.row_plain s f (Draw.entry s) i hd hclick.2.2.1 hc hs
  constructor
  · intro h
    have hcond : f.toggled i = true ∨
        (if f.mouseDoubleClicked = true then true else (Draw.entry s).is_double_click) = true := by
      rcases h with h | h
      · exact Or.inl h
      · right
        rw [if_pos h]
    rw [if_pos hcond] at hrow
    rw [Draw_soleClick s f i hclick, Draw.notify_state, hrow]
    exact ⟨rfl, rfl⟩
  · intro hsel htog hdbl
    unfold Frame.togglesFrom at htog
    have htf : f.toggled i = false := by
      rw [htog, hsel]
      simp
    have hcond : ¬ (f.toggled i = true ∨
        (if f.mouseDoubleClicked = true then true else (Draw.entry s).is_double_click) = true) := by
      simp [htf, hdbl, Draw.entry]
    rw [if_neg hcond] at hrow
    rw [Draw_soleClick s f i hclick, Draw.notify_state, hrow]
    rfl

theorem Draw_plain_click_witness :
    GetSelectedIndices (Draw (SetSelectedIndex (SetItems construct ["a", "b", "c"]) 1)
      (clickFrame 1 false true true false)).state = [] :=
  (Draw_plain_click (SetSelectedIndex (SetItems construct ["a", "b", "c"]) 1)
      (clickFrame 1 false true true false) 1 (by decide) (by decide)
      (Or.inr (by decide))).2 (by decide) (by decide) rfl

/-! ## Change notification -/

/-- The contract of the change test in terms of the loop variables at the test: the
frame returns `REDRAW`, commits the candidate and calls a registered callback exactly
when `is_double_click` is set or the candidate vector differs from the committed one. -/
theorem Draw.change_contract (s : Impl) (f : Frame) :
    ((Draw s f).result = DrawResult.REDRAW ↔
      ((Draw.candidate s f).is_double_click = true ∨
        (Draw.candidate s f).selected_indices ≠ GetSelectedIndices s)) ∧
    (((Draw.candidate s f).is_double_click = true ∨
        (Draw.candidate s f).selected_indices ≠ GetSelectedIndices s) →
      GetSelectedIndices (Draw s f).state = (Draw.candidate s f).selected_indices ∧
      (s.on_value_changed_ = true → (Draw s f).callback =
        some (GetSelectedValues (Draw s f).state, (Draw.candidate s f).is_double_click)) ∧
      (s.on_value_changed_ = false → (Draw s f).callback = none)) ∧
    (¬ ((Draw.candidate s f).is_double_click = true ∨
        (Draw.candidate s f).selected_indices ≠ GetSelectedIndices s) →
      (Draw s f).result = DrawResult.NONE ∧ (Draw s f).callback = none ∧
      GetSelectedIndices (Draw s f).state = GetSelectedIndices s) ∧
    (∀ i : Nat, s.selection_mode_ ≠ DISABLE → s.selected_indices_ = [(i : Int)] →
      f.soleClick (Count s) i →
      ((f.keyCtrl = false ∧ f.keyShift = false) ∨ Int.land s.selection_mode_ MULTI_SELECT = 0) →
      f.mouseDoubleClicked = true → s.on_value_changed_ = true →
      (Draw.candidate s f).selected_indices = GetSelectedIndices s ∧
      GetSelectedIndices (Draw s f).state = GetSelectedIndices s ∧
      (Draw s f).result = DrawResult.REDRAW ∧
      (Draw s f).callback = some (GetSelectedValues (Draw s f).state, true)) := by
  have key : ∀ v : DrawLocals,
      ((Draw.notify s v).result = DrawResult.REDRAW ↔
        (v.is_double_click = true ∨ v.selected_indices ≠ GetSelectedIndices s)) ∧
      ((v.is_double_click = true ∨ v.selected_indices ≠ GetSelectedIndices s) →
        GetSelectedIndices (Draw.notify s v).state = v.selected_indices ∧
        (s.on_value_changed_ = true → (Draw.notify s v).callback =
          some (GetSelectedValues (Draw.notify s v).state, v.is_double_click)) ∧
        (s.on_value_changed_ = false → (Draw.notify s v).callback = none)) ∧
      (¬ (v.is_double_click = true ∨ v.selected_indices ≠ GetSelectedIndices s) →
        (Draw.notify s v).result = DrawResult.NONE ∧ (Draw.notify s v).callback = none ∧
        GetSelectedIndices (Draw.notify s v).state = GetSelectedIndices s) := by
    intro v
    by_cases h : v.is_double_click = true ∨ v.selected_indices ≠ s.selected_indices_
    · have hn := Draw.notify_changed s v h
      refine ⟨⟨fun _ => h, fun _ => by rw [hn]⟩, fun _ => ⟨by rw [hn]; rfl, ?_, ?_⟩,
        fun hneg => absurd h hneg⟩
      · intro hreg
        rw [hn]
        simp only [hreg, if_true]
      · intro hreg
        rw [hn]
        simp only [hreg, Bool.false_eq_true, if_false]
    · have hh := h
      rw [not_or] at hh
      have hd : v.is_double_click = false := by
        cases hv : v.is_double_click
        · rfl
        · exact absurd hv hh.1
      have hs : v.selected_indices = s.selected_indices_ := not_not.mp hh.2
      have hn := Draw.notify_unchanged s v hd hs
      refine ⟨⟨fun hr => ?_, fun hc => absurd hc h⟩, fun hc => absurd hc h,
        fun _ => ⟨by rw [hn], by rw [hn], by rw [hn]; rfl⟩⟩
      rw [hn] at hr
      exact DrawResult.noConfusion hr
  have main : ((Draw s f).result = DrawResult.REDRAW ↔
        ((Draw.candidate s f).is_double_click = true ∨
          (Draw.candidate s f).selected_indices ≠ GetSelectedIndices s)) ∧
      (((Draw.candidate s f).is_double_click = true ∨
          (Draw.candidate s f).selected_indices ≠ GetSelectedIndices s) →
        GetSelectedIndices (Draw s f).state = (Draw.candidate s f).selected_indices ∧
        (s.on_value_changed_ = true → (Draw s f).callback =
          some (GetSelectedValues (Draw s f).state, (Draw.candidate s f).is_double_click)) ∧
        (s.on_value_changed_ = false → (Draw s f).callback = none)) ∧
      (¬ ((Draw.candidate s f).is_double_click = true ∨
          (Draw.candidate s f).selected_indices ≠ GetSelectedIndices s) →
        (Draw s f).result = DrawResult.NONE ∧ (Draw s f).callback = none ∧
        GetSelectedIndices (Draw s f).state = GetSelectedIndices s) := by
    by_cases hopen : f.listBoxOpen = true
    · have hD : Draw s f = Draw.notify s (Draw.rows s f) := by rw [Draw, if_pos hopen]
      have hC : Draw.candidate s f = Draw.rows s f := by rw [Draw.candidate, if_pos hopen]
      rw [hD, hC]
      exact key _
    · have hD : Draw s f = { state := s, result := DrawResult.NONE, callback := none } := by
        rw [Draw, if_neg hopen]
      have hC : Draw.candidate s f = Draw.entry s := by rw [Draw.candidate, if_neg hopen]
      rw [hD, hC]
      have hno : ¬ ((Draw.entry s).is_double_click = true ∨
          (Draw.entry s).selected_indices ≠ GetSelectedIndices s) := by
        simp [Draw.entry, GetSelectedIndices]
      exact ⟨⟨fun hr => DrawResult.noConfusion hr, fun hc => absurd hc hno⟩,
        fun hc => absurd hc hno, fun _ => ⟨rfl, rfl, rfl⟩⟩
  refine ⟨main.1, main.2.1, main.2.2, ?_⟩
  intro i hd hsel hclick hplain hdbl hreg
  have hc : ¬ (f.keyCtrl = true ∧ Int.land s.selection_mode_ MULTI_SELECT ≠ 0) := by
    rintro ⟨h1, h2⟩
    rcases hplain with h | h
    · rw [h.1] at h1
      exact Bool.noConfusion h1
    · exact h2 h
  have hs : ¬ (f.keyShift = true ∧ Int.land s.selection_mode_ MULTI_SELECT ≠ 0) := by
    rintro ⟨h1, h2⟩
    rcases hplain with h | h
    · rw [h.2] at h1
      exact Bool.noConfusion h1
    · exact h2 h
  have hrow := Draw.row_plain s f (Draw.entry s) i hd hclick.2.2.1 hc hs
  have hcond : f.toggled i = true ∨
      (if f.mouseDoubleClicked = true then true else (Draw.entry s).is_double_click) = true := by
    right
    rw [if_pos hdbl]
  rw [if_pos hcond, if_pos hdbl] at hrow
  have hC : Draw.candidate s f =
      { selected_indices := [(i : Int)], is_double_click := true,
        last_selected_index_ := (i : Int) } := by
    rw [Draw.candidate, if_pos hclick.1, Draw.rows_soleClick s f i hclick, hrow]
  have hchg : (Draw.candidate s f).is_double_click = true ∨
      (Draw.candidate s f).selected_indices ≠ GetSelectedIndices s := by
    left
    rw [hC]
  have hcand : (Draw.candidate s f).selected_indices = GetSelectedIndices s := by
    rw [hC]
    exact hsel.symm
  have hdc : (Draw.candidate s f).is_double_click = true := by rw [hC]
  refine ⟨hcand, ?_, main.1.mpr hchg, ?_⟩
  · rw [(main.2.1 hchg).1, hcand]
  · rw [(main.2.1 hchg).2.1 hreg, hdc]

/-- Every branch of the row body sets `is_double_click` when the row is pressed while
the backend reports a double-click, and otherwise leaves it. -/
theorem Draw.row_is_double_click (s : Impl) (f : Frame) (v : DrawLocals) (r : Nat) :
    (Draw.row s f v r).is_double_click =
      (v.is_double_click ||
        (decide (s.selection_mode_ ≠ DISABLE) && (f.mouseDoubleClicked && f.pressed r))) := by
  by_cases hd : s.selection_mode_ = DISABLE
  · simp [Draw.row, Selectable, hd]
  · by_cases hp : f.pressed r = true
    · by_cases hdbl : f.mouseDoubleClicked = true
      · simp only [Draw.row, Selectable, hd, hp, hdbl, decide_False, and_self, if_true]
        split_ifs <;> simp [hd]
      · rw [Bool.not_eq_true] at hdbl
        simp only [Draw.row, Selectable, hd, hp, hdbl, decide_False, and_self, if_true,
          Bool.false_eq_true, if_false]
        split_ifs <;> simp
    · rw [Bool.not_eq_true] at hp
      rw [Draw.row_not_pressed s f v r hp, hp]
      simp

theorem Draw.foldl_is_double_click (s : Impl) (f : Frame) :
    ∀ (l : List Nat) (v : DrawLocals),
      (l.foldl (Draw.row s f) v).is_double_click =
        (v.is_double_click ||
          (decide (s.selection_mode_ ≠ DISABLE) && (f.mouseDoubleClicked && l.any f.pressed)))
  | [], v => by simp
  | a :: l, v => by
    rw [List.foldl_cons, Draw.foldl_is_double_click s f l, Draw.row_is_double_click,
      List.any_cons]
    cases v.is_double_click <;> cases decide (s.selection_mode_ ≠ DISABLE) <;>
      cases f.mouseDoubleClicked <;> cases f.pressed a <;> simp

/-- The flag `is_double_click` at the change test is set exactly when the list box is
open, the mode is not `DISABLE`, the backend reports a double-click and some row of
the store is pressed in this frame. -/
theorem Draw.candidate_is_double_click (s : Impl) (f : Frame) :
    (Draw.candidate s f).is_double_click = true ↔
      (f.listBoxOpen = true ∧ s.selection_mode_ ≠ DISABLE ∧ f.mouseDoubleClicked = true ∧
        ∃ r, r < Count s ∧ f.pressed r = true) := by
  by_cases hopen : f.listBoxOpen = true
  · rw [Draw.candidate, if_pos hopen, Draw.rows, Draw.foldl_is_double_click]
    simp only [Draw.entry, Bool.false_or, Bool.and_eq_true, decide_eq_true_eq, List.any_eq_true,
      List.mem_range, hopen, true_and, Count]
  · rw [Draw.candidate, if_neg hopen]
    simp [Draw.entry, hopen]

/-- C9: change notification. For every `Draw` step, with the candidate being the
loop variables at the change test: the step returns `REDRAW` exactly when a
double-click was seen or the candidate vector differs from the committed one; in
that case the candidate becomes the committed selection and, when a callback is
registered, it is called (once) with the labels of the newly committed selection
and the double-click flag, while with no callback the change is committed all the
same; otherwise the step returns `NONE`, calls nothing and keeps the selection. A
plain double-click on the only selected row has a candidate equal to the committed
selection and still calls the callback with flag `true`. The double-click flag is
the backend signal: it is set exactly when the list box is open, the mode is not
`DISABLE`, the backend reports a double-click and a row of the store is pressed; so
for a frame with a single pressed row outside `DISABLE`, whatever branch the click
takes, the flag handed to the callback is `IsMouseDoubleClicked`, the step returns
`REDRAW` exactly when the backend reports a double-click or the candidate differs,
and a double-click always returns `REDRAW` and calls a registered callback with
flag `true`, even when the selection did not change. -/
theorem Draw_change_notification (s : Impl) (f : Frame) :
    ((Draw s f).result = DrawResult.REDRAW ↔
      ((Draw.candidate s f).is_double_click = true ∨
        (Draw.candidate s f).selected_indices ≠ GetSelectedIndices s)) ∧
    (((Draw.candidate s f).is_double_click = true ∨
        (Draw.candidate s f).selected_indices ≠ GetSelectedIndices s) →
      GetSelectedIndices (Draw s f).state = (Draw.candidate s f).selected_indices ∧
      (s.on_value_changed_ = true → (Draw s f).callback =
        some (GetSelectedValues (Draw s f).state, (Draw.candidate s f).is_double_click)) ∧
      (s.on_value_changed_ = false → (Draw s f).callback = none)) ∧
    (¬ ((Draw.candidate s f).is_double_click = true ∨
        (Draw.candidate s f).selected_indices ≠ GetSelectedIndices s) →
      (Draw s f).result = DrawResult.NONE ∧ (Draw s f).callback = none ∧
      GetSelectedIndices (Draw s f).state = GetSelectedIndices s) ∧
    (∀ i : Nat, s.selection_mode_ ≠ DISABLE → s.selected_indices_ = [(i : Int)] →
      f.soleClick (Count s) i →
      ((f.keyCtrl = false ∧ f.keyShift = false) ∨ Int.land s.selection_mode_ MULTI_SELECT = 0) →
      f.mouseDoubleClicked = true → s.on_value_changed_ = true →
      (Draw.candidate s f).selected_indices = GetSelectedIndices s ∧
      GetSelectedIndices (Draw s f).state = GetSelectedIndices s ∧
      (Draw s f).result = DrawResult.REDRAW ∧
      (Draw s f).callback = some (GetSelectedValues (Draw s f).state, true)) ∧
    ((Draw.candidate s f).is_double_click = true ↔
      (f.listBoxOpen = true ∧ s.selection_mode_ ≠ DISABLE ∧ f.mouseDoubleClicked = true ∧
        ∃ r, r < Count s ∧ f.pressed r = true)) ∧
    (∀ i : Nat, s.selection_mode_ ≠ DISABLE → f.soleClick (Count s) i →
      (Draw.candidate s f).is_double_click = f.mouseDoubleClicked ∧
      ((Draw s f).result = DrawResult.REDRAW ↔
        (f.mouseDoubleClicked = true ∨
          (Draw.candidate s f).selected_indices ≠ GetSelectedIndices s)) ∧
      (s.on_value_changed_ = true → (Draw s f).result = DrawResult.REDRAW →
        (Draw s f).callback = some (GetSelectedValues (Draw s f).state, f.mouseDoubleClicked)) ∧
      (f.mouseDoubleClicked = true →
        (Draw s f).result = DrawResult.REDRAW ∧
        GetSelectedIndices (Draw s f).state = (Draw.candidate s f).selected_indices ∧
        (s.on_value_changed_ = true →
          (Draw s f).callback = some (GetSelectedValues (Draw s f).state, true)))) := by
  have hc := Draw.change_contract s f
  have hflag := Draw.candidate_is_double_click s f
  refine ⟨hc.1, hc.2.1, hc.2.2.1, hc.2.2.2, hflag, ?_⟩
  intro i hd hclick
  have heq : (Draw.candidate s f).is_double_click = f.mouseDoubleClicked := by
    cases hm : f.mouseDoubleClicked
    · cases hv : (Draw.candidate s f).is_double_click
      · rfl
      · have h := (hflag.mp hv).2.2.1
        rw [hm] at h
        exact Bool.noConfusion h
    · exact hflag.mpr ⟨hclick.1, hd, hm, i, hclick.2.1, hclick.2.2.1⟩
  refine ⟨heq, ?_, ?_, ?_⟩
  · rw [← heq]
    exact hc.1
  · intro hreg hres
    rw [← heq]
    exact (hc.2.1 (hc.1.mp hres)).2.1 hreg
  · intro hm
    have hchg : (Draw.candidate s f).is_double_click = true ∨
        (Draw.candidate s f).selected_indices ≠ GetSelectedIndices s := by
      left
      rw [heq]
      exact hm
    refine ⟨hc.1.mpr hchg, (hc.2.1 hchg).1, ?_⟩
    intro hreg
    have h := (hc.2.1 hchg).2.1 hreg
    rw [heq, hm] at h
    exact h

theorem Draw_change_notification_witness :
    GetSelectedIndices (SetOnValueChanged (Draw (SetSelectionMode
        (SetItems construct ["a", "b", "c"]) MULTI_SELECT)
        (clickFrame 1 true false false false)).state true) = [1] ∧
    (Draw (SetOnValueChanged (Draw (SetSelectionMode
        (SetItems construct ["a", "b", "c"]) MULTI_SELECT)
        (clickFrame 1 true false false false)).state true)
      (clickFrame 1 false false true true)).result = DrawResult.REDRAW ∧
    GetSelectedIndices (Draw (SetOnValueChanged (Draw (SetSelectionMode
        (SetItems construct ["a", "b", "c"]) MULTI_SELECT)
        (clickFrame 1 true false false false)).state true)
      (clickFrame 1 false false true true)).state = [1] ∧
    (Draw (SetOnValueChanged (Draw (SetSelectionMode
        (SetItems construct ["a", "b", "c"]) MULTI_SELECT)
        (clickFrame 1 true false false false)).state true)
      (clickFrame 1 false false true true)).callback = some (some ["b"], true) :=
  have h := (Draw_change_notification
    (SetOnValueChanged (Draw (SetSelectionMode
      (SetItems construct ["a", "b", "c"]) MULTI_SELECT)
      (clickFrame 1 true false false false)).state true)
    (clickFrame 1 false false true true)).2.2.2.2.2 1 (by decide) (by decide)
  ⟨by decide, (h.2.2.2 rfl).1, (h.2.2.2 rfl).2.1.trans (by decide),
    ((h.2.2.2 rfl).2.2 (by decide)).trans (by decide)⟩

/-! ## The anchor across a ctrl-click -/

theorem std_sort_pair (p c : Nat) (hpc : p ≠ c) :
    std_sort ([(p : Int)] ++ [(c : Int)]) = [((min p c : Nat) : Int), ((max p c : Nat) : Int)] := by
  rcases Nat.lt_or_gt_of_ne hpc with h | h
  · have hle : (p : Int) ≤ (c : Int) := by omega
    simp [std_sort, List.insertionSort, List.orderedInsert, hle, Nat.min_eq_left h.le,
      Nat.max_eq_right h.le]
  · have hnle : ¬ (p : Int) ≤ (c : Int) := by omega
    simp [std_sort, List.insertionSort, List.orderedInsert, hnle, Nat.min_eq_right h.le,
      Nat.max_eq_left h.le]

/-- C10: a ctrl-click does not move the anchor. In a mode with the `MULTI_SELECT`
bit, for rows `p`, `c`, `t` below `Count` with `p ≠ c` and neither selected at the
start, the frames plain-click `p`, ctrl-click `c`, shift-click `t` (toggle signals
being the negation of the current membership) leave the selections `[p]`, then the
ascending list of `p` and `c`, then exactly the rows from `min t p` to `max t p`:
the range is measured from `p`, not from `c`. -/
theorem Draw_ctrl_click_keeps_anchor (s : Impl) (f1 f2 f3 : Frame) (p c t : Nat)
    (hm : Int.land s.selection_mode_ MULTI_SELECT ≠ 0) (hpc : p ≠ c)
    (hp : ¬ (p : Int) ∈ s.selected_indices_) (_hc : ¬ (c : Int) ∈ s.selected_indices_)
    (h1 : f1.soleClick (Count s) p) (h1c : f1.keyCtrl = false) (h1s : f1.keyShift = false)
    (h1t : f1.togglesFrom s.selected_indices_ p)
    (h2 : f2.soleClick (Count s) c) (h2c : f2.keyCtrl = true)
    (h2t : f2.togglesFrom (GetSelectedIndices (Draw s f1).state) c)
    (h3 : f3.soleClick (Count s) t) (h3c : f3.keyCtrl = false) (h3s : f3.keyShift = true) :
    GetSelectedIndices (Draw s f1).state = [(p : Int)] ∧
    GetSelectedIndices (Draw (Draw s f1).state f2).state
      = [((min p c : Nat) : Int), ((max p c : Nat) : Int)] ∧
    GetSelectedIndices (Draw (Draw (Draw s f1).state f2).state f3).state
      = rowRange (min t p) (max t p) := by
  have hd : s.selection_mode_ ≠ DISABLE := multi_not_disabled hm
  have htp : f1.toggled p = true := by
    unfold Frame.togglesFrom at h1t
    rw [h1t]
    simp [hp]
  have hst1 : (Draw s f1).state =
      { s with last_selected_index_ := (p : Int), selected_indices_ := [(p : Int)] } := by
    have hrow := Draw.row_plain s f1 (Draw.entry s) p hd h1.2.2.1
      (by rw [h1c]; simp) (by rw [h1s]; simp)
    rw [if_pos (Or.inl htp)] at hrow
    rw [Draw_soleClick s f1 p h1, Draw.notify_state, hrow]
  have hcp : ¬ (c : Int) ∈ [(p : Int)] := by
    rw [List.mem_singleton]
    omega
  have htc : f2.toggled c = true := by
    unfold Frame.togglesFrom at h2t
    rw [h2t, hst1]
    simp only [GetSelectedIndices, hcp, decide_False, Bool.not_false]
  have h2x : f2.soleClick (Count (Draw s f1).state) c := by
    rw [Count_Draw]
    exact h2
  have hm1 : Int.land (Draw s f1).state.selection_mode_ MULTI_SELECT ≠ 0 := by
    rw [mode_Draw]
    exact hm
  have hst2 : (Draw (Draw s f1).state f2).state =
      { s with last_selected_index_ := (p : Int)
               selected_indices_ := [((min p c : Nat) : Int), ((max p c : Nat) : Int)] } := by
    rw [Draw_soleClick _ f2 c h2x, Draw.notify_state,
      Draw.row_ctrl _ f2 _ c hm1 h2.2.2.1 h2c, hst1]
    simp only [Draw.entry, htc, hcp, not_false_eq_true, and_self, if_true]
    rw [std_sort_pair p c hpc]
  have h3x : f3.soleClick (Count (Draw (Draw s f1).state f2).state) t := by
    rw [Count_Draw, Count_Draw]
    exact h3
  have hm2 : Int.land (Draw (Draw s f1).state f2).state.selection_mode_ MULTI_SELECT ≠ 0 := by
    rw [mode_Draw]
    exact hm1
  have hst3 : (Draw (Draw (Draw s f1).state f2).state f3).state =
      { s with last_selected_index_ := (p : Int)
               selected_indices_ := rowRange (min t p) (max t p) } := by
    rw [Draw_soleClick _ f3 t h3x, Draw.notify_state,
      Draw.row_shift _ f3 _ t hm2 h3.2.2.1 h3c h3s, hst2]
    simp only [Draw.entry, ne_eq, row_ne_NO_SELECTION, not_false_eq_true, if_true,
      Draw.pushRange_rows]
  rw [hst3, hst2, hst1]
  exact ⟨rfl, rfl, rfl⟩

theorem Draw_ctrl_click_keeps_anchor_witness :
    GetSelectedIndices (Draw (SetSelectionMode (SetItems construct ["a", "b", "c", "d"]) MULTI_SELECT)
      (clickFrame 1 true false false false)).state = [1] ∧
    GetSelectedIndices (Draw (Draw (SetSelectionMode (SetItems construct ["a", "b", "c", "d"])
      MULTI_SELECT) (clickFrame 1 true false false false)).state
      (clickFrame 3 true true false false)).state = [1, 3] ∧
    GetSelectedIndices (Draw (Draw (Draw (SetSelectionMode (SetItems construct ["a", "b", "c", "d"])
      MULTI_SELECT) (clickFrame 1 true false false false)).state
      (clickFrame 3 true true false false)).state
      (clickFrame 0 true false true false)).state = [0, 1] :=
  have h := Draw_ctrl_click_keeps_anchor
    (SetSelectionMode (SetItems construct ["a", "b", "c", "d"]) MULTI_SELECT)
    (clickFrame 1 true false false false) (clickFrame 3 true true false false)
    (clickFrame 0 true false true false) 1 3 0
    (by decide) (by decide) (by decide) (by decide) (by decide) rfl rfl (by decide)
    (by decide) rfl (by decide) (by decide) rfl rfl
  ⟨h.1.trans (by decide), h.2.1.trans (by decide), h.2.2.trans (by decide)⟩

/-! ## The selection invariant -/

/-- C1: evaluation at the failing input. On a freshly constructed view, which has no
items, `AddSelectedIndex 0` leaves the selection `[0]` and `SetSelectedIndex 0` leaves
`[-1]`, while `Count` is `0`: neither selected index is a row of the store, the
selection invariant is broken, and `GetSelectedValues` reads outside `items_`. -/
theorem AddSelectedIndex_empty_store_breaks_invariant :
    GetSelectedIndices (AddSelectedIndex construct 0) = [0] ∧
    Count (AddSelectedIndex construct 0) = 0 ∧
    ¬ SelectionInvariant (AddSelectedIndex construct 0) ∧
    GetSelectedValues (AddSelectedIndex construct 0) = none ∧
    GetSelectedIndices (SetSelectedIndex construct 0) = [-1] ∧
    Count (SetSelectedIndex construct 0) = 0 ∧
    ¬ SelectionInvariant (SetSelectedIndex construct 0) := by
  decide

/-! ## Modifier keys without the `MULTI_SELECT` bit -/

theorem Draw.row_withKeys (s : Impl) (f : Frame) (ctrl shift : Bool)
    (hbit : Int.land s.selection_mode_ MULTI_SELECT = 0) :
    Draw.row s (f.withKeys ctrl shift) = Draw.row s f := by
  funext v r
  simp [Draw.row, Selectable, Frame.withKeys, hbit]

theorem Draw_withKeys (s : Impl) (f : Frame) (ctrl shift : Bool)
    (hbit : Int.land s.selection_mode_ MULTI_SELECT = 0) :
    Draw s (f.withKeys ctrl shift) = Draw s f := by
  have hrows : Draw.rows s (f.withKeys ctrl shift) = Draw.rows s f := by
    unfold Draw.rows
    rw [Draw.row_withKeys s f ctrl shift hbit]
  unfold Draw
  rw [hrows]
  rfl

/-- C11: modifiers are ignored without `MULTI_SELECT`. In a mode other than `DISABLE`
whose `MULTI_SELECT` bit is clear, for every state, every frame with a single pressed
row and every toggle and double-click signal, the whole outcome of `Draw` (state with
selection and anchor, returned result, callback payload) is the same for any two
settings of the ctrl and shift flags, and the selection afterwards has at most one
element. -/
theorem Draw_modifiers_ignored (s : Impl) (f : Frame) (i : Nat)
    (hd : s.selection_mode_ ≠ DISABLE)
    (hbit : Int.land s.selection_mode_ MULTI_SELECT = 0)
    (hclick : f.soleClick (Count s) i) (ctrl shift ctrl2 shift2 : Bool) :
    Draw s (f.withKeys ctrl shift) = Draw s (f.withKeys ctrl2 shift2) ∧
    (GetSelectedIndices (Draw s (f.withKeys ctrl shift)).state).length ≤ 1 := by
  rw [Draw_withKeys s f ctrl shift hbit, Draw_withKeys s f ctrl2 shift2 hbit]
  refine ⟨rfl, ?_⟩
  have hrow := Draw.row_plain s f (Draw.entry s) i hd hclick.2.2.1
    (fun h => h.2 hbit) (fun h => h.2 hbit)
  rw [Draw_soleClick s f i hclick, Draw.notify_state, hrow]
  split_ifs <;> simp [GetSelectedIndices]

theorem Draw_modifiers_ignored_witness :
    Draw (AddSelectedIndex (AddSelectedIndex (SetItems construct ["a", "b", "c"]) 0) 2)
        ((clickFrame 1 true false false false).withKeys true true)
      = Draw (AddSelectedIndex (AddSelectedIndex (SetItems construct ["a", "b", "c"]) 0) 2)
        ((clickFrame 1 true false false false).withKeys false false) ∧
    GetSelectedIndices (Draw (AddSelectedIndex (AddSelectedIndex
        (SetItems construct ["a", "b", "c"]) 0) 2)
        ((clickFrame 1 true false false false).withKeys true true)).state = [1] :=
  ⟨(Draw_modifiers_ignored (AddSelectedIndex (AddSelectedIndex
        (SetItems construct ["a", "b", "c"]) 0) 2)
      (clickFrame 1 true false false false) 1 (by decide) (by decide) (by decide)
      true true false false).1, by decide⟩

/-! ## Labels of the selection -/

theorem GetSelectedValues.loop_in_range (items : List String) :
    ∀ (l : List Int) (results : List String),
      (∀ k ∈ l, 0 ≤ k ∧ k < (items.length : Int)) →
      ∃ labels, GetSelectedValues.loop items l results = some (results ++ labels) ∧
        labels.length = l.length ∧
        ∀ n idx, l.get? n = some idx →
          ∃ label, items.get? idx.toNat = some label ∧ labels.get? n = some label
  | [], results, _ => ⟨[], by simp [GetSelectedValues.loop], rfl, by simp⟩
  | idx :: rest, results, h => by
    have hidx := h idx (List.mem_cons_self idx rest)
    have hlt : idx.toNat < items.length := by omega
    have hget : items.get? idx.toNat = some (items.get ⟨idx.toNat, hlt⟩) :=
      List.get?_eq_get hlt
    obtain ⟨labels, hl, hlen, hnth⟩ := GetSelectedValues.loop_in_range items rest
      (results ++ [items.get ⟨idx.toNat, hlt⟩]) (fun k hk => h k (List.mem_cons_of_mem idx hk))
    refine ⟨items.get ⟨idx.toNat, hlt⟩ :: labels, ?_, by simp [hlen], ?_⟩
    · simp only [GetSelectedValues.loop, hidx.1, if_true, hget, hl, List.append_assoc,
        List.singleton_append]
    · intro n j hj
      cases n with
      | zero =>
        simp only [List.get?_cons_zero, Option.some.injEq] at hj
        subst hj
        exact ⟨_, hget, rfl⟩
      | succ n =>
        simp only [List.get?_cons_succ] at hj
        simpa only [List.get?_cons_succ] using hnth n j hj

/-- C12: in a state whose selected indices all lie in `[0, Count - 1]`,
`GetSelectedValues` reads no element outside `items_` (it returns `some labels`), the
labels are as many as the selected indices, and the entry at each position is the
label stored in `items_` at the selected index of that position, so the labels come
in the order of `GetSelectedIndices`. -/
theorem GetSelectedValues_in_range (s : Impl)
    (h : ∀ k ∈ GetSelectedIndices s, 0 ≤ k ∧ k < (Count s : Int)) :
    ∃ labels, GetSelectedValues s = some labels ∧
      labels.length = (GetSelectedIndices s).length ∧
      ∀ n idx, (GetSelectedIndices s).get? n = some idx →
        ∃ label, s.items_.get? idx.toNat = some label ∧ labels.get? n = some label := by
  obtain ⟨labels, hl, hlen, hnth⟩ :=
    GetSelectedValues.loop_in_range s.items_ s.selected_indices_ [] h
  exact ⟨labels, by simpa [GetSelectedValues] using hl, hlen, hnth⟩

theorem GetSelectedValues_in_range_witness :
    (∀ k ∈ GetSelectedIndices (AddSelectedIndex (AddSelectedIndex
        (SetItems construct ["a", "b", "c"]) 2) 0),
      0 ≤ k ∧ k < (Count (AddSelectedIndex (AddSelectedIndex
        (SetItems construct ["a", "b", "c"]) 2) 0) : Int)) ∧
    GetSelectedValues (AddSelectedIndex (AddSelectedIndex
        (SetItems construct ["a", "b", "c"]) 2) 0) = some ["a", "c"] ∧
    ∃ labels, GetSelectedValues (AddSelectedIndex (AddSelectedIndex
        (SetItems construct ["a", "b", "c"]) 2) 0) = some labels ∧
      labels.length = (GetSelectedIndices (AddSelectedIndex (AddSelectedIndex
        (SetItems construct ["a", "b", "c"]) 2) 0)).length :=
  ⟨by decide, by decide,
    (GetSelectedValues_in_range (AddSelectedIndex (AddSelectedIndex
        (SetItems construct ["a", "b", "c"]) 2) 0) (by decide)).imp
      (fun _ hl => ⟨hl.1, hl.2.1⟩)⟩

/-! ## The empty item store -/

/-- C13: evaluation at the failing input. Once the item store is empty,
`SetSelectedIndex index` with `index ≥ 0` leaves the selection `[-1]`, not the empty
selection; only a negative index clears. On a freshly constructed view
`SetSelectedIndex 0` selects `-1`, and `GetSelectedValues` then reads outside
`items_`. -/
theorem SetSelectedIndex_empty_store_selects_minus_one (s : Impl) (index : Int) :
    Count (SetItems s []) = 0 ∧
    GetSelectedIndices (SetSelectedIndex (SetItems s []) index)
      = (if 0 ≤ index then [-1] else []) ∧
    GetSelectedIndices (SetSelectedIndex construct 0) = [-1] ∧
    GetSelectedValues (SetSelectedIndex construct 0) = none := by
  refine ⟨rfl, ?_, by decide, by decide⟩
  by_cases h : 0 ≤ index
  · have hmin : min (-1) index = -1 := by omega
    simp [SetSelectedIndex, SetItems, GetSelectedIndices, lastIndex, h, hmin]
  · simp [SetSelectedIndex, SetItems, GetSelectedIndices, h]

/-! ## The anchor across `SetItems` -/

/-- C14: evaluation at the failing input. `SetItems` leaves `last_selected_index_` as
it was, for every state and list. After a plain click on row 2 of `["a", "b", "c"]`
in `MULTI_SELECT` mode and `SetItems ["a"]`, the anchor is still `2`; the shift-click
on row 0 that follows selects `[0, 1, 2]` although `Count` is `1`, and a registered
callback is handed labels read outside `items_`. -/
theorem SetItems_keeps_stale_anchor (s : Impl) (items : List String) :
    (SetItems s items).last_selected_index_ = s.last_selected_index_ ∧
    (SetItems (Draw (SetSelectionMode (SetItems construct ["a", "b", "c"]) MULTI_SELECT)
      (clickFrame 2 true false false false)).state ["a"]).last_selected_index_ = 2 ∧
    GetSelectedIndices (Draw (SetItems (Draw (SetSelectionMode
      (SetItems construct ["a", "b", "c"]) MULTI_SELECT)
      (clickFrame 2 true false false false)).state ["a"])
      (clickFrame 0 true false true false)).state = [0, 1, 2] ∧
    Count (Draw (SetItems (Draw (SetSelectionMode
      (SetItems construct ["a", "b", "c"]) MULTI_SELECT)
      (clickFrame 2 true false false false)).state ["a"])
      (clickFrame 0 true false true false)).state = 1 ∧
    (Draw (SetOnValueChanged (SetItems (Draw (SetSelectionMode
      (SetItems construct ["a", "b", "c"]) MULTI_SELECT)
      (clickFrame 2 true false false false)).state ["a"]) true)
      (clickFrame 0 true false true false)).callback = some (none, false) :=
  ⟨rfl, by decide, by decide, by decide, by decide⟩

/-! ## Bits of the selection mode -/

theorem land_zero_right (x : Int) : Int.land x 0 = 0 := by
  cases x with
  | ofNat n => simp [Int.land]
  | negSucc n =>
    show ((Nat.ldiff 0 n : Nat) : Int) = 0
    rw [Nat.ldiff, Nat.bitwise_zero_left]
    rfl

/-- The test `mode & MULTI_SELECT` reads bit 1 of the mode. -/
theorem land_MULTI_SELECT (x : Int) :
    Int.land x MULTI_SELECT = if Int.testBit x 1 = true then 2 else 0 := by
  have h2 : MULTI_SELECT = Int.bit false (Int.bit true 0) := by decide
  rw [← Int.bit_decomp x, ← Int.bit_decomp (Int.div2 x)]
  rw [Int.testBit_bit_succ, Int.testBit_bit_zero, h2]
  rw [Int.land_bit, Int.land_bit, land_zero_right, Bool.and_false, Bool.and_true]
  cases (Int.div2 x).bodd
  · decide
  · decide

theorem testBit_one_two_pow (k : Nat) (hk : 2 ≤ k) : Int.testBit ((2 : Int) ^ k) 1 = false := by
  have h : ((2 : Int) ^ k) = ((2 ^ k : Nat) : Int) := by push_cast; rfl
  rw [h]
  show Nat.testBit (2 ^ k) 1 = false
  rw [Nat.testBit_two_pow]
  simp
  omega

theorem testBit_self_two_pow (k : Nat) : Int.testBit ((2 : Int) ^ k) k = true := by
  have h : ((2 : Int) ^ k) = ((2 ^ k : Nat) : Int) := by push_cast; rfl
  rw [h]
  show Nat.testBit (2 ^ k) k = true
  simp

/-- A mode with any bit set is not `DISABLE`. -/
theorem lor_two_pow_ne_DISABLE (m : Int) (k : Nat) : Int.lor m ((2 : Int) ^ k) ≠ DISABLE := by
  intro h
  have h1 := Int.testBit_lor m ((2 : Int) ^ k) k
  rw [h, testBit_self_two_pow, Bool.or_true] at h1
  have h0 : Int.testBit DISABLE k = false := Nat.zero_testBit k
  rw [h0] at h1
  exact Bool.noConfusion h1

/-- Setting a bit other than bits 0 and 1 does not change the `MULTI_SELECT` test. -/
theorem land_MULTI_SELECT_lor (m : Int) (k : Nat) (hk : 2 ≤ k) :
    Int.land (Int.lor m ((2 : Int) ^ k)) MULTI_SELECT = Int.land m MULTI_SELECT := by
  rw [land_MULTI_SELECT, land_MULTI_SELECT, Int.testBit_lor, testBit_one_two_pow k hk,
    Bool.or_false]

/-- The row body reads the mode only through the `DISABLE` test and the
`MULTI_SELECT` test. -/
theorem Draw.row_mode_congr (s : Impl) (m1 m2 : Int) (f : Frame)
    (hd : m1 = DISABLE ↔ m2 = DISABLE)
    (hb : Int.land m1 MULTI_SELECT = Int.land m2 MULTI_SELECT) :
    Draw.row (SetSelectionMode s m1) f = Draw.row (SetSelectionMode s m2) f := by
  funext v r
  simp only [Draw.row, SetSelectionMode, hd, hb]

/-- Two modes that agree on the `DISABLE` test and on the `MULTI_SELECT` test give the
same frame outcome, apart from the stored mode itself. -/
theorem Draw_mode_congr (s : Impl) (m1 m2 : Int) (f : Frame)
    (hd : m1 = DISABLE ↔ m2 = DISABLE)
    (hb : Int.land m1 MULTI_SELECT = Int.land m2 MULTI_SELECT) :
    GetSelectedIndices (Draw (SetSelectionMode s m2) f).state
      = GetSelectedIndices (Draw (SetSelectionMode s m1) f).state ∧
    (Draw (SetSelectionMode s m2) f).state.last_selected_index_
      = (Draw (SetSelectionMode s m1) f).state.last_selected_index_ ∧
    (Draw (SetSelectionMode s m2) f).result = (Draw (SetSelectionMode s m1) f).result ∧
    (Draw (SetSelectionMode s m2) f).callback = (Draw (SetSelectionMode s m1) f).callback := by
  have hrows : Draw.rows (SetSelectionMode s m1) f = Draw.rows (SetSelectionMode s m2) f := by
    unfold Draw.rows
    rw [Draw.row_mode_congr s m1 m2 f hd hb]
    rfl
  unfold Draw
  rw [hrows]
  by_cases hopen : f.listBoxOpen = true
  · rw [if_pos hopen, if_pos hopen]
    simp only [Draw.notify, SetSelectionMode, GetSelectedValues]
    split_ifs <;> exact ⟨rfl, rfl, rfl, rfl⟩
  · rw [if_neg hopen, if_neg hopen]
    exact ⟨rfl, rfl, rfl, rfl⟩

/-- C15, as stated, fails: with mode `DISABLE` (0) a pressed row is not handled, while
with `DISABLE` or-ed with the `DESELECTABLE` bit it is; the two selections after the
same frame differ. -/
theorem Draw_DESELECTABLE_bit_not_inert_on_DISABLE :
    GetSelectedIndices (Draw (SetSelectionMode (SetItems construct ["a"]) DISABLE)
      (clickFrame 0 true false false false)).state = [] ∧
    GetSelectedIndices (Draw (SetSelectionMode (SetItems construct ["a"])
      (Int.lor DISABLE DESELECTABLE)) (clickFrame 0 true false false false)).state = [0] ∧
    GetSelectedIndices (Draw (SetSelectionMode (SetItems construct ["a"]) DISABLE)
      (clickFrame 0 true false false false)).state ≠
    GetSelectedIndices (Draw (SetSelectionMode (SetItems construct ["a"])
      (Int.lor DISABLE DESELECTABLE)) (clickFrame 0 true false false false)).state := by
  decide

/-- C15, amended: for every mode `m` other than `DISABLE`, every bit `2 ^ k` with
`k ≥ 2` (`DESELECTABLE` is `2 ^ 2`, the unknown bits are those above), every state
and every frame, `Draw` under mode `m` and under `m` or-ed with that bit leave the same
selection and the same anchor, return the same result and hand the same payload to
the callback. -/
theorem Draw_high_bits_inert (s : Impl) (f : Frame) (m : Int) (k : Nat)
    (hm : m ≠ DISABLE) (hk : 2 ≤ k) :
    DESELECTABLE = (2 : Int) ^ 2 ∧
    GetSelectedIndices (Draw (SetSelectionMode s (Int.lor m ((2 : Int) ^ k))) f).state
      = GetSelectedIndices (Draw (SetSelectionMode s m) f).state ∧
    (Draw (SetSelectionMode s (Int.lor m ((2 : Int) ^ k))) f).state.last_selected_index_
      = (Draw (SetSelectionMode s m) f).state.last_selected_index_ ∧
    (Draw (SetSelectionMode s (Int.lor m ((2 : Int) ^ k))) f).result
      = (Draw (SetSelectionMode s m) f).result ∧
    (Draw (SetSelectionMode s (Int.lor m ((2 : Int) ^ k))) f).callback
      = (Draw (SetSelectionMode s m) f).callback :=
  ⟨by decide, Draw_mode_congr s m (Int.lor m ((2 : Int) ^ k)) f
    ⟨fun h => absurd h hm, fun h => absurd h (lor_two_pow_ne_DISABLE m k)⟩
    (land_MULTI_SELECT_lor m k hk).symm⟩

theorem Draw_high_bits_inert_witness :
    GetSelectedIndices (Draw (SetSelectionMode (SetItems construct ["a", "b"])
        (Int.lor SINGLE_SELECT ((2 : Int) ^ 2))) (clickFrame 1 true true false false)).state
      = GetSelectedIndices (Draw (SetSelectionMode (SetItems construct ["a", "b"]) SINGLE_SELECT)
        (clickFrame 1 true true false false)).state ∧
    GetSelectedIndices (Draw (SetSelectionMode (SetItems construct ["a", "b"]) SINGLE_SELECT)
        (clickFrame 1 true true false false)).state = [1] :=
  ⟨(Draw_high_bits_inert (SetItems construct ["a", "b"]) (clickFrame 1 true true false false)
      SINGLE_SELECT 2 (by decide) (by decide)).2.1, by decide⟩

/-! ## `DISABLE` mode -/

theorem foldl_fixed {α : Type} (g : α → Nat → α) :
    ∀ (l : List Nat) (v : α), (∀ w r, g w r = w) → l.foldl g v = v
  | [], _, _ => rfl
  | a :: l, v, h => by
    rw [List.foldl_cons, h v a]
    exact foldl_fixed g l v h

theorem Draw.rows_disabled (s : Impl) (f : Frame) (h : s.selection_mode_ = DISABLE) :
    Draw.rows s f = Draw.entry s := by
  unfold Draw.rows
  apply foldl_fixed
  intro w r
  simp [Draw.row, Selectable, h]

/-- C16: `DISABLE` mode makes click handling a no-op. When the mode is `DISABLE`, for
every state and every frame (any pressed rows, any ctrl, shift and double-click
flags), `Draw` leaves the whole state, in particular the selection and the anchor,
unchanged, does not call the callback and returns `NONE`. -/
theorem Draw_disabled_noop (s : Impl) (f : Frame) (h : s.selection_mode_ = DISABLE) :
    (Draw s f).state = s ∧
    GetSelectedIndices (Draw s f).state = GetSelectedIndices s ∧
    (Draw s f).state.last_selected_index_ = s.last_selected_index_ ∧
    (Draw s f).callback = none ∧
    (Draw s f).result = DrawResult.NONE := by
  have hD : Draw s f = { state := s, result := DrawResult.NONE, callback := none } := by
    unfold Draw
    split_ifs
    · rw [Draw.rows_disabled s f h, Draw.notify_unchanged s (Draw.entry s) rfl rfl]
      rfl
    · rfl
  rw [hD]
  exact ⟨rfl, rfl, rfl, rfl, rfl⟩

theorem Draw_disabled_noop_witness :
    (Draw (SetOnValueChanged (SetSelectionMode (SetSelectedIndex
        (SetItems construct ["a", "b"]) 0) DISABLE) true)
        (clickFrame 1 true true false true)).state
      = SetOnValueChanged (SetSelectionMode (SetSelectedIndex
        (SetItems construct ["a", "b"]) 0) DISABLE) true ∧
    (Draw (SetOnValueChanged (SetSelectionMode (SetSelectedIndex
        (SetItems construct ["a", "b"]) 0) DISABLE) true)
        (clickFrame 1 true true false true)).callback = none ∧
    (Draw (SetOnValueChanged (SetSelectionMode (SetSelectedIndex
        (SetItems construct ["a", "b"]) 0) DISABLE) true)
        (clickFrame 1 true true false true)).result = DrawResult.NONE :=
  have h := Draw_disabled_noop (SetOnValueChanged (SetSelectionMode (SetSelectedIndex
      (SetItems construct ["a", "b"]) 0) DISABLE) true) (clickFrame 1 true true false true) rfl
  ⟨h.1, h.2.2.2.1, h.2.2.2.2⟩

/-! ## The mode and the direct mutators -/

/-- C17, as stated, fails: with mode `DISABLE` on the store `["a", "b"]`, both
`SetSelectedIndex 0` and `AddSelectedIndex 0` leave the selection `[0]`, which is not
empty; with mode `SINGLE_SELECT`, `AddSelectedIndex 1` after `AddSelectedIndex 0`
leaves `[0, 1]`, which has two elements. -/
theorem direct_mutators_not_bounded_by_mode :
    GetSelectedIndices (SetSelectedIndex (SetSelectionMode (SetItems construct ["a", "b"])
      DISABLE) 0) ≠ [] ∧
    GetSelectedIndices (AddSelectedIndex (SetSelectionMode (SetItems construct ["a", "b"])
      DISABLE) 0) ≠ [] ∧
    ¬ (GetSelectedIndices (AddSelectedIndex (AddSelectedIndex (SetSelectionMode
      (SetItems construct ["a", "b"]) SINGLE_SELECT) 0) 1)).length ≤ 1 := by
  decide

/-- C17, amended: the direct mutators do not read the selection mode. For every
non-empty item store, every mode `m` and every index `k`, `SetSelectedIndex k` and
`AddSelectedIndex k` leave the same selection under mode `m` as under the mode the
state had; after `SetSelectedIndex k` the selection has at most one element and is
not empty when `k ≥ 0`; after `AddSelectedIndex k` it holds the clamped index
`max 0 (min k (Count - 1))` and every index selected before. -/
theorem direct_mutators_ignore_mode (s : Impl) (m k : Int) (hne : s.items_ ≠ []) :
    GetSelectedIndices (SetSelectedIndex (SetSelectionMode s m) k)
      = GetSelectedIndices (SetSelectedIndex s k) ∧
    GetSelectedIndices (AddSelectedIndex (SetSelectionMode s m) k)
      = GetSelectedIndices (AddSelectedIndex s k) ∧
    (GetSelectedIndices (SetSelectedIndex (SetSelectionMode s m) k)).length ≤ 1 ∧
    (0 ≤ k → GetSelectedIndices (SetSelectedIndex (SetSelectionMode s m) k) ≠ []) ∧
    max 0 (min k ((Count s : Int) - 1)) ∈
      GetSelectedIndices (AddSelectedIndex (SetSelectionMode s m) k) ∧
    (0 ≤ max 0 (min k ((Count s : Int) - 1)) ∧
      max 0 (min k ((Count s : Int) - 1)) < (Count s : Int)) ∧
    (∀ j : Int, j ∈ GetSelectedIndices s →
      j ∈ GetSelectedIndices (AddSelectedIndex (SetSelectionMode s m) k)) := by
  have hpos : 0 < s.items_.length := List.length_pos.mpr hne
  have hset : GetSelectedIndices (SetSelectedIndex (SetSelectionMode s m) k)
      = GetSelectedIndices (SetSelectedIndex s k) := by
    simp only [SetSelectedIndex, SetSelectionMode, GetSelectedIndices, lastIndex]
    split_ifs <;> rfl
  have hadd : GetSelectedIndices (AddSelectedIndex (SetSelectionMode s m) k)
      = GetSelectedIndices (AddSelectedIndex s k) := by
    simp only [AddSelectedIndex, SetSelectionMode, GetSelectedIndices, lastIndex]
    split_ifs <;> rfl
  have hc : max 0 (min (lastIndex s) k) = max 0 (min k ((Count s : Int) - 1)) := by
    simp [lastIndex, Count, min_comm]
  have hmem : ∀ j : Int, j ∈ GetSelectedIndices (AddSelectedIndex s k) ↔
      j ∈ s.selected_indices_ ∨ j = max 0 (min (lastIndex s) k) := by
    intro j
    by_cases hin : max 0 (min (lastIndex s) k) ∈ s.selected_indices_
    · simp only [AddSelectedIndex, GetSelectedIndices, hin, not_true_eq_false, if_false]
      constructor
      · exact Or.inl
      · rintro (h | h)
        · exact h
        · exact h ▸ hin
    · simp only [AddSelectedIndex, GetSelectedIndices, hin, not_false_eq_true, if_true]
      exact mem_std_sort_push
  rw [hset, hadd, ← hc]
  refine ⟨rfl, rfl, ?_, ?_, (hmem _).mpr (Or.inr rfl), ?_, fun j hj => (hmem j).mpr (Or.inl hj)⟩
  · simp only [SetSelectedIndex, GetSelectedIndices]
    split_ifs <;> simp
  · intro hk
    simp [SetSelectedIndex, GetSelectedIndices, hk]
  · simp only [lastIndex, Count]
    omega

theorem direct_mutators_ignore_mode_witness :
    GetSelectedIndices (SetSelectedIndex (SetSelectionMode (SetItems construct ["a", "b"])
        DISABLE) 1)
      = GetSelectedIndices (SetSelectedIndex (SetItems construct ["a", "b"]) 1) ∧
    GetSelectedIndices (SetSelectedIndex (SetItems construct ["a", "b"]) 1) = [1] :=
  ⟨(direct_mutators_ignore_mode (SetItems construct ["a", "b"]) DISABLE 1 (by decide)).1,
    by decide⟩

/-! ## Frames that report no redraw -/

/-- C18, as stated, fails: in `MULTI_SELECT` mode with an empty selection and no
anchor, a shift-click on row 1 (toggle signal the negation of its membership, no
double-click) returns `NONE` and calls nothing, yet the anchor has become `1`, so
the state after the frame is not the state before it. -/
theorem Draw_no_redraw_can_move_anchor :
    (Draw (SetSelectionMode (SetItems construct ["a", "b"]) MULTI_SELECT)
      (clickFrame 1 true false true false)).result = DrawResult.NONE ∧
    (SetSelectionMode (SetItems construct ["a", "b"]) MULTI_SELECT).last_selected_index_
      = NO_SELECTION ∧
    (Draw (SetSelectionMode (SetItems construct ["a", "b"]) MULTI_SELECT)
      (clickFrame 1 true false true false)).state.last_selected_index_ = 1 ∧
    (Draw (SetSelectionMode (SetItems construct ["a", "b"]) MULTI_SELECT)
      (clickFrame 1 true false true false)).state
      ≠ SetSelectionMode (SetItems construct ["a", "b"]) MULTI_SELECT := by
  decide

theorem foldl_fixed_mem {α : Type} (g : α → Nat → α) :
    ∀ (l : List Nat) (v : α), (∀ r ∈ l, ∀ w, g w r = w) → l.foldl g v = v
  | [], _, _ => rfl
  | a :: l, v, h => by
    rw [List.foldl_cons, h a (List.mem_cons_self a l) v]
    exact foldl_fixed_mem g l v (fun r hr => h r (List.mem_cons_of_mem a hr))

/-- With no pressed row among the rows of the store the row loop changes nothing. -/
theorem Draw.rows_no_press (s : Impl) (f : Frame)
    (h : ∀ r, r < Count s → f.pressed r = false) : Draw.rows s f = Draw.entry s := by
  unfold Draw.rows
  apply foldl_fixed_mem
  intro r hr w
  exact Draw.row_not_pressed s f w r (h r (List.mem_range.mp hr))

/-- A change test that returns `NONE` saw no double-click and a candidate equal to the
committed vector, and leaves the state with the anchor of the row loop. -/
theorem Draw.notify_NONE (s : Impl) (v : DrawLocals)
    (h : (Draw.notify s v).result = DrawResult.NONE) :
    v.is_double_click = false ∧ v.selected_indices = s.selected_indices_ ∧
    Draw.notify s v =
      { state := { s with last_selected_index_ := v.last_selected_index_ }
        result := DrawResult.NONE
        callback := none } := by
  by_cases hch : v.is_double_click = true ∨ v.selected_indices ≠ s.selected_indices_
  · rw [Draw.notify_changed s v hch] at h
    exact DrawResult.noConfusion h
  · rw [not_or] at hch
    have hd : v.is_double_click = false := by
      cases hv : v.is_double_click
      · rfl
      · exact absurd hv hch.1
    exact ⟨hd, not_not.mp hch.2, Draw.notify_unchanged s v hd (not_not.mp hch.2)⟩

theorem Impl.with_same_anchor (s : Impl) (a : Int) (h : a = s.last_selected_index_) :
    ({ s with last_selected_index_ := a } : Impl) = s := by
  subst h
  rfl

/-- C18, amended: a no-change frame does nothing, with one exception. For every state
and every frame for which `Draw` returns `NONE`: the items, the mode, the committed
selection and the registered callback are unchanged and the callback is not called.
If the list box is closed, the mode is `DISABLE` or no row of the store is pressed,
the whole state after the frame equals the state before it. If exactly one row `i`
is pressed and its toggle signal is the negation of its membership, the whole state
after the frame equals the state before it, unless the click is a shift-click (the
`MULTI_SELECT` bit set, ctrl not held, shift held) with no anchor yet; in that case
the committed selection is empty, the click is no double-click, and the state after
the frame is the state before it with the anchor set to `i`, which differs from
it. -/
theorem Draw_no_redraw_frame (s : Impl) (f : Frame)
    (h : (Draw s f).result = DrawResult.NONE) :
    (Draw s f).state.items_ = s.items_ ∧
    (Draw s f).state.selection_mode_ = s.selection_mode_ ∧
    GetSelectedIndices (Draw s f).state = GetSelectedIndices s ∧
    (Draw s f).state.on_value_changed_ = s.on_value_changed_ ∧
    (Draw s f).callback = none ∧
    ((f.listBoxOpen = false ∨ s.selection_mode_ = DISABLE ∨
        ∀ r, r < Count s → f.pressed r = false) → (Draw s f).state = s) ∧
    (∀ i : Nat, f.soleClick (Count s) i → f.togglesFrom (GetSelectedIndices s) i →
      (¬ (Int.land s.selection_mode_ MULTI_SELECT ≠ 0 ∧ f.keyCtrl = false ∧
          f.keyShift = true ∧ s.last_selected_index_ = NO_SELECTION) →
        (Draw s f).state = s) ∧
      ((Int.land s.selection_mode_ MULTI_SELECT ≠ 0 ∧ f.keyCtrl = false ∧
          f.keyShift = true ∧ s.last_selected_index_ = NO_SELECTION) →
        GetSelectedIndices s = [] ∧ f.mouseDoubleClicked = false ∧
        (Draw s f).state = { s with last_selected_index_ := (i : Int) } ∧
        (Draw s f).state ≠ s)) := by
  by_cases hopen : f.listBoxOpen = true
  · have hD : Draw s f = Draw.notify s (Draw.rows s f) := by rw [Draw, if_pos hopen]
    rw [hD] at h
    obtain ⟨hdb, hsel, hN⟩ := Draw.notify_NONE s _ h
    have hst : (Draw s f).state =
        { s with last_selected_index_ := (Draw.rows s f).last_selected_index_ } := by
      rw [hD, hN]
    refine ⟨by rw [hst], by rw [hst], by rw [hst]; rfl, by rw [hst], by rw [hD, hN], ?_, ?_⟩
    · rintro (hcl | hdis | hnp)
      · rw [hcl] at hopen
        exact Bool.noConfusion hopen
      · rw [hst, Draw.rows_disabled s f hdis]
        rfl
      · rw [hst, Draw.rows_no_press s f hnp]
        rfl
    · intro i hclick htog
      have hrows := Draw.rows_soleClick s f i hclick
      rw [hrows] at hdb hsel hst
      unfold Frame.togglesFrom at htog
      constructor
      · intro hE
        rw [hst]
        apply Impl.with_same_anchor
        by_cases hdis : s.selection_mode_ = DISABLE
        · have hrow : Draw.row s f (Draw.entry s) i = Draw.entry s := by
            simp [Draw.row, Selectable, hdis]
          rw [hrow]
          rfl
        · by_cases hcb : f.keyCtrl = true ∧ Int.land s.selection_mode_ MULTI_SELECT ≠ 0
          · rw [Draw.row_ctrl s f _ i hcb.2 hclick.2.2.1 hcb.1]
            rfl
          · by_cases hsb : f.keyShift = true ∧ Int.land s.selection_mode_ MULTI_SELECT ≠ 0
            · have hc : f.keyCtrl = false := by
                cases hk : f.keyCtrl
                · rfl
                · exact absurd ⟨hk, hsb.2⟩ hcb
              have hanchor : (Draw.entry s).last_selected_index_ ≠ NO_SELECTION :=
                fun h0 => hE ⟨hsb.2, hc, hsb.1, h0⟩
              rw [Draw.row_shift s f _ i hsb.2 hclick.2.2.1 hc hsb.1, if_pos hanchor]
              rfl
            · have hrow := Draw.row_plain s f (Draw.entry s) i hdis hclick.2.2.1 hcb hsb
              by_cases hcond : f.toggled i = true ∨
                  (if f.mouseDoubleClicked = true then true
                    else (Draw.entry s).is_double_click) = true
              · rw [if_pos hcond] at hrow
                rw [hrow] at hdb hsel
                simp only at hdb hsel
                exfalso
                rcases hcond with ht | hd2
                · have hin : (i : Int) ∈ s.selected_indices_ := by
                    rw [← hsel]
                    exact List.mem_singleton_self _
                  rw [htog] at ht
                  simp [GetSelectedIndices, hin] at ht
                · rw [hdb] at hd2
                  exact Bool.noConfusion hd2
              · rw [if_neg hcond] at hrow
                rw [hrow]
                rfl
      · rintro ⟨hm, hc, hsh, hno⟩
        have hrow := Draw.row_shift s f (Draw.entry s) i hm hclick.2.2.1 hc hsh
        have hanchor : ¬ (Draw.entry s).last_selected_index_ ≠ NO_SELECTION :=
          fun h0 => h0 hno
        rw [if_neg hanchor] at hrow
        rw [hrow] at hdb hsel hst
        simp only at hdb hsel hst
        refine ⟨hsel.symm, ?_, hst, ?_⟩
        · cases hk : f.mouseDoubleClicked
          · rfl
          · rw [hk] at hdb
            simp at hdb
        · rw [hst]
          intro heq
          have hla := congrArg Impl.last_selected_index_ heq
          simp only at hla
          rw [hno] at hla
          exact row_ne_NO_SELECTION i hla
  · have hD : Draw s f = { state := s, result := DrawResult.NONE, callback := none } := by
      rw [Draw, if_neg hopen]
    rw [hD]
    refine ⟨rfl, rfl, rfl, rfl, rfl, fun _ => rfl, ?_⟩
    intro i hclick
    exact absurd hclick.1 hopen

theorem Draw_no_redraw_frame_witness :
    (Draw (SetSelectionMode (SetItems construct ["a", "b"]) MULTI_SELECT)
        (clickFrame 1 true false true false)).result = DrawResult.NONE ∧
    GetSelectedIndices (Draw (SetSelectionMode (SetItems construct ["a", "b"]) MULTI_SELECT)
        (clickFrame 1 true false true false)).state = [] ∧
    (Draw (SetSelectionMode (SetItems construct ["a", "b"]) MULTI_SELECT)
        (clickFrame 1 true false true false)).callback = none ∧
    (Draw (SetSelectionMode (SetItems construct ["a", "b"]) MULTI_SELECT)
        (clickFrame 1 true false true false)).state
      = { SetSelectionMode (SetItems construct ["a", "b"]) MULTI_SELECT with
          last_selected_index_ := 1 } :=
  have h := Draw_no_redraw_frame (SetSelectionMode (SetItems construct ["a", "b"]) MULTI_SELECT)
    (clickFrame 1 true false true false) (by decide)
  ⟨by decide, h.2.2.1.trans (by decide), h.2.2.2.2.1,
    ((h.2.2.2.2.2.2 1 (by decide) (by decide)).2
      ⟨by decide, rfl, rfl, by decide⟩).2.2.1⟩

/-! ## Implicit behaviour of the plain and shift branches -/

/-- C19: a plain single click on a selected row of a multi-row selection clears
everything. In a mode other than `DISABLE`, for a committed selection with at least
two elements and a row `i` in it, a frame whose only pressed row is `i`, which takes
the plain branch, is no double-click and whose toggle signal is the negation of the
membership of `i`: the selection afterwards is empty, not `[i]`, the anchor is
unchanged and `Draw` returns `REDRAW`. -/
theorem Draw_plain_click_on_multi_selection (s : Impl) (f : Frame) (i : Nat)
    (hd : s.selection_mode_ ≠ DISABLE) (hclick : f.soleClick (Count s) i)
    (hplain : (f.keyCtrl = false ∧ f.keyShift = false) ∨
      Int.land s.selection_mode_ MULTI_SELECT = 0)
    (hlen : 2 ≤ (GetSelectedIndices s).length) (hin : (i : Int) ∈ GetSelectedIndices s)
    (htog : f.togglesFrom (GetSelectedIndices s) i) (hdbl : f.mouseDoubleClicked = false) :
    GetSelectedIndices (Draw s f).state = [] ∧
    GetSelectedIndices (Draw s f).state ≠ [(i : Int)] ∧
    (Draw s f).state.last_selected_index_ = s.last_selected_index_ ∧
    (Draw s f).result = DrawResult.REDRAW := by
  have hc : ¬ (f.keyCtrl = true ∧ Int.land s.selection_mode_ MULTI_SELECT ≠ 0) := by
    rintro ⟨h1, h2⟩
    rcases hplain with h | h
    · rw [h.1] at h1
      exact Bool.noConfusion h1
    · exact h2 h
  have hs : ¬ (f.keyShift = true ∧ Int.land s.selection_mode_ MULTI_SELECT ≠ 0) := by
    rintro ⟨h1, h2⟩
    rcases hplain with h | h
    · rw [h.2] at h1
      exact Bool.noConfusion h1
    · exact h2 h
  have hrow := Draw.row_plain s f (Draw.entry s) i hd hclick.2.2.1 hc hs
  unfold Frame.togglesFrom at htog
  have htf : f.toggled i = false := by
    rw [htog]
    simp [hin]
  have hcond : ¬ (f.toggled i = true ∨
      (if f.mouseDoubleClicked = true then true else (Draw.entry s).is_double_click) = true) := by
    simp [htf, hdbl, Draw.entry]
  rw [if_neg hcond] at hrow
  have hne : s.selected_indices_ ≠ [] := by
    intro h0
    simp only [GetSelectedIndices] at hlen
    rw [h0] at hlen
    exact absurd hlen (by decide)
  have hD := Draw_soleClick s f i hclick
  rw [hrow] at hD
  rw [hD, Draw.notify_changed s _ (Or.inr (fun h0 => hne h0.symm))]
  exact ⟨rfl, by simp [GetSelectedIndices], rfl, rfl⟩

theorem Draw_plain_click_on_multi_selection_witness :
    GetSelectedIndices (AddSelectedIndex (SetSelectedIndex (SetItems construct ["a", "b", "c"]) 0) 2)
      = [0, 2] ∧
    GetSelectedIndices (Draw (AddSelectedIndex (SetSelectedIndex
        (SetItems construct ["a", "b", "c"]) 0) 2)
        (clickFrame 2 false false false false)).state = [] :=
  ⟨by decide, (Draw_plain_click_on_multi_selection (AddSelectedIndex (SetSelectedIndex
        (SetItems construct ["a", "b", "c"]) 0) 2) (clickFrame 2 false false false false) 2
      (by decide) (by decide) (Or.inl ⟨rfl, rfl⟩) (by decide) (by decide) (by decide) rfl).1⟩

/-- C20: a shift-click never moves an existing anchor. In a mode with the
`MULTI_SELECT` bit, with ctrl not held and the anchor at row `a`, a shift-click on
row `j` leaves the anchor at `a` and selects the rows between `a` and `j`; a second
shift-click on row `k` again leaves the anchor at `a` and makes the selection exactly
the rows from `min a k` to `max a k`, whatever `j` was. -/
theorem Draw_shift_click_keeps_anchor (s : Impl) (f1 f2 : Frame) (a j k : Nat)
    (hm : Int.land s.selection_mode_ MULTI_SELECT ≠ 0)
    (ha : s.last_selected_index_ = (a : Int))
    (h1 : f1.soleClick (Count s) j) (hc1 : f1.keyCtrl = false) (hs1 : f1.keyShift = true)
    (h2 : f2.soleClick (Count s) k) (hc2 : f2.keyCtrl = false) (hs2 : f2.keyShift = true) :
    (Draw s f1).state.last_selected_index_ = (a : Int) ∧
    GetSelectedIndices (Draw s f1).state = rowRange (min a j) (max a j) ∧
    (Draw (Draw s f1).state f2).state.last_selected_index_ = (a : Int) ∧
    GetSelectedIndices (Draw (Draw s f1).state f2).state = rowRange (min a k) (max a k) := by
  have hst1 : (Draw s f1).state =
      { s with last_selected_index_ := (a : Int)
               selected_indices_ := rowRange (min a j) (max a j) } := by
    rw [Draw_soleClick s f1 j h1, Draw.notify_state, Draw.row_shift s f1 _ j hm h1.2.2.1 hc1 hs1]
    simp only [Draw.entry, ha, ne_eq, row_ne_NO_SELECTION, not_false_eq_true, if_true,
      Draw.pushRange_rows, min_comm, max_comm]
  have h2x : f2.soleClick (Count (Draw s f1).state) k := by
    rw [Count_Draw]
    exact h2
  have hm1 : Int.land (Draw s f1).state.selection_mode_ MULTI_SELECT ≠ 0 := by
    rw [mode_Draw]
    exact hm
  have hst2 : (Draw (Draw s f1).state f2).state =
      { s with last_selected_index_ := (a : Int)
               selected_indices_ := rowRange (min a k) (max a k) } := by
    rw [Draw_soleClick _ f2 k h2x, Draw.notify_state,
      Draw.row_shift _ f2 _ k hm1 h2.2.2.1 hc2 hs2, hst1]
    simp only [Draw.entry, ne_eq, row_ne_NO_SELECTION, not_false_eq_true, if_true,
      Draw.pushRange_rows, min_comm, max_comm]
  rw [hst2, hst1]
  exact ⟨rfl, rfl, rfl, rfl⟩

theorem Draw_shift_click_keeps_anchor_witness :
    (Draw (SetSelectionMode (SetItems construct ["a", "b", "c", "d", "e"]) MULTI_SELECT)
      (clickFrame 2 true false false false)).state.last_selected_index_ = 2 ∧
    GetSelectedIndices (Draw (Draw (Draw (SetSelectionMode
        (SetItems construct ["a", "b", "c", "d", "e"]) MULTI_SELECT)
        (clickFrame 2 true false false false)).state
        (clickFrame 4 true false true false)).state
        (clickFrame 1 true false true false)).state = [1, 2] :=
  ⟨by decide, (Draw_shift_click_keeps_anchor (Draw (SetSelectionMode
        (SetItems construct ["a", "b", "c", "d", "e"]) MULTI_SELECT)
        (clickFrame 2 true false false false)).state
      (clickFrame 4 true false true false) (clickFrame 1 true false true false) 2 4 1
      (by decide) (by decide) (by decide) rfl rfl (by decide) rfl rfl).2.2.2.trans (by decide)⟩

end ListView
